import Mathlib

/-!
# Verification of the SCD engine and fact-loading logic

Shallow embedding, in Lean 4, of the Slowly Changing Dimension (SCD)
engine of `analytics/etl/load_dimensions.py` and of the fact-table
loader / orchestrator of `analytics/etl/load_facts.py`.

Modelling conventions:
* pandas cells are `Cell := Option Val`, where `Val` is an integer or a
  string scalar; `Option.isSome` plays the role of `pd.notna`, and
  `Val.str` is Python's `str(...)` rendering.
* the relational store is explicit state.  Dimension and fact tables are
  lists of typed rows; wall-clock timestamps (`GETDATE()`, `datetime.now()`)
  are a `now : Nat` parameter; `log_etl_db` writes and other primitive
  store operations are counted by a `calls` counter where a claim needs a
  call trace.
* the store's identity-column key assignment (the engine pops `geo_id`
  before insert and the database assigns a fresh surrogate key) is
  modelled as `max existing id + 1`, which never reuses a live key.
* a persistence error raised by the store while updating one business key
  is modelled by a `failing : Val → Bool` oracle: a failing key's
  statement raises, its transaction commits nothing, and the exception
  propagates exactly as in the Python control flow (no try/except inside
  the per-key loops).  The run of an `apply_scd_type*` call returns
  `(table, count, errored)`: the store state when the call ends (normally
  or by exception), the change counter at that point, and whether an
  exception escaped.
-/

namespace EvoDwh

/-- A scalar cell value: integer or string, as staged/stored data. -/
inductive Val where
  | i : Int → Val
  | s : String → Val
deriving DecidableEq, Repr

/-- Python's `str(...)` on a scalar value. -/
def Val.str : Val → String
  | .i n => toString n
  | .s t => t

/-- A nullable dataframe/table cell; `none` is NaN/NULL (`pd.notna` fails). -/
abbrev Cell := Option Val

/-- The change test shared by the three SCD policies
(`load_dimensions.py` lines 115, 164, 250):
`pd.notna(new_val) and pd.notna(old_val) and str(new_val) != str(old_val)`. -/
def changedCell (newV oldV : Cell) : Bool :=
  match newV, oldV with
  | some a, some b => a.str ≠ b.str
  | _, _ => false

/-! ## SCD Type 1 (`apply_scd_type1`, lines 88-132) -/

/-- A row of a Type-1 dimension table, restricted to the columns the
function touches: the business key, the tracked update column and the
modification timestamp. -/
structure Scd1Row where
  bk : Val
  colVal : Cell
  date_modification : Option Nat
deriving DecidableEq, Repr

/-- A staged row for the single-column policies (Type 1 and Type 3):
business key plus the new value of the tracked column. -/
structure Scd1New where
  bk : Val
  newVal : Cell
deriving DecidableEq, Repr

/-- The inner merge `df_new.merge(df_current[[bk, col]], on=bk)`:
one pair per (new row, current row) match, in left order. -/
def scd1Merged (dfNew : List Scd1New) (cur : List Scd1Row) :
    List (Scd1New × Scd1Row) :=
  dfNew.flatMap (fun n => (cur.filter (fun c => c.bk = n.bk)).map (fun c => (n, c)))

/-- The `UPDATE {table} SET {col} = :new_val, date_modification = GETDATE()
WHERE {bk} = :bk` statement; the bound parameter is `str(new_val)`, so the
stored value is the string rendering. -/
def scd1Update (now : Nat) (st : List Scd1Row) (bk : Val) (nv : Val) :
    List Scd1Row :=
  st.map (fun r =>
    if r.bk = bk then
      { r with colVal := some (Val.s nv.str), date_modification := some now }
    else r)

/-- The per-pair loop body of `apply_scd_type1`: once an exception has
escaped (`errored`), nothing further runs; a changed pair on a failing key
raises with nothing committed; otherwise a changed pair commits its update
and bumps the counter. -/
def scd1Step (failing : Val → Bool) (now : Nat)
    (acc : List Scd1Row × Nat × Bool) (p : Scd1New × Scd1Row) :
    List Scd1Row × Nat × Bool :=
  let (tbl, cnt, errored) := acc
  if errored then acc
  else
    match p.1.newVal, p.2.colVal with
    | some nv, some ov =>
      if nv.str ≠ ov.str then
        if failing p.1.bk then (tbl, cnt, true)
        else (scd1Update now tbl p.1.bk nv, cnt + 1, errored)
      else acc
    | _, _ => acc

/-- `apply_scd_type1(engine, table, business_key, update_column, df_new)`:
read the current table; return 0 if empty; otherwise walk the merged pairs
updating changed keys in place. -/
def apply_scd_type1 (failing : Val → Bool) (now : Nat)
    (table : List Scd1Row) (dfNew : List Scd1New) :
    List Scd1Row × Nat × Bool :=
  if table = [] then (table, 0, false)
  else (scd1Merged dfNew table).foldl (scd1Step failing now) (table, 0, false)

/-! ## SCD Type 3 (`apply_scd_type3`, lines 224-270) -/

/-- A row of a Type-3 dimension table: business key, current column,
previous-value column and the two stamp columns. -/
structure Scd3Row where
  bk : Val
  curVal : Cell
  prevVal : Cell
  date_changement : Option Nat
  date_modification : Option Nat
deriving DecidableEq, Repr

/-- Merge for Type 3, identical in shape to the Type-1 merge. -/
def scd3Merged (dfNew : List Scd1New) (cur : List Scd3Row) :
    List (Scd1New × Scd3Row) :=
  dfNew.flatMap (fun n => (cur.filter (fun c => c.bk = n.bk)).map (fun c => (n, c)))

/-- The Type-3 `UPDATE`: shift the row's current value (as stored at update
time) into the previous column, write `str(new_val)` into the current
column, stamp both date columns. -/
def scd3Update (now : Nat) (st : List Scd3Row) (bk : Val) (nv : Val) :
    List Scd3Row :=
  st.map (fun r =>
    if r.bk = bk then
      { r with prevVal := r.curVal, curVal := some (Val.s nv.str),
               date_changement := some now, date_modification := some now }
    else r)

/-- Per-pair loop body of `apply_scd_type3` (same control flow as Type 1). -/
def scd3Step (failing : Val → Bool) (now : Nat)
    (acc : List Scd3Row × Nat × Bool) (p : Scd1New × Scd3Row) :
    List Scd3Row × Nat × Bool :=
  let (tbl, cnt, errored) := acc
  if errored then acc
  else
    match p.1.newVal, p.2.curVal with
    | some nv, some ov =>
      if nv.str ≠ ov.str then
        if failing p.1.bk then (tbl, cnt, true)
        else (scd3Update now tbl p.1.bk nv, cnt + 1, errored)
      else acc
    | _, _ => acc

/-- `apply_scd_type3(engine, table, business_key, current_column,
previous_column, date_column, df_new)`. -/
def apply_scd_type3 (failing : Val → Bool) (now : Nat)
    (table : List Scd3Row) (dfNew : List Scd1New) :
    List Scd3Row × Nat × Bool :=
  if table = [] then (table, 0, false)
  else (scd3Merged dfNew table).foldl (scd3Step failing now) (table, 0, false)

/-! ## SCD Type 2 (`apply_scd_type2`, lines 135-221) -/

/-- A row of a Type-2 dimension table (`dim_geographie`-shaped): surrogate
key `geo_id`, business key, the remaining attribute columns as an
association list (tracked columns included), and the historization
metadata. -/
structure Scd2Row where
  geo_id : Nat
  bk : Val
  attrs : List (String × Cell)
  version : Int
  est_actif : Bool
  date_debut_validite : Nat
  date_fin_validite : Option Nat
  date_creation : Nat
  date_modification : Nat
deriving DecidableEq, Repr

/-- A staged row for Type 2: business key plus the staged values of the
tracked columns (the merge suffixes make `row[col + '_new']` read these). -/
structure Scd2New where
  bk : Val
  vals : List (String × Cell)
deriving DecidableEq, Repr

/-- Column read on a dict/row: first binding wins, absent column is null. -/
def getAttr (a : List (String × Cell)) (c : String) : Cell :=
  match a.find? (fun p => p.1 = c) with
  | some p => p.2
  | none => none

/-- Column write on a dict/row: replace the binding if present, else append. -/
def setAttr (a : List (String × Cell)) (c : String) (v : Cell) :
    List (String × Cell) :=
  if a.any (fun p => p.1 = c) then
    a.map (fun p => if p.1 = c then (c, v) else p)
  else a ++ [(c, v)]

/-- Merge for Type 2 against the active rows. -/
def scd2Merged (dfNew : List Scd2New) (cur : List Scd2Row) :
    List (Scd2New × Scd2Row) :=
  dfNew.flatMap (fun n => (cur.filter (fun c => c.bk = n.bk)).map (fun c => (n, c)))

/-- Lines 160-166: `changed` is true when some tracked column passes the
shared change test. -/
def scd2Changed (tracked : List String) (n : Scd2New) (c : Scd2Row) : Bool :=
  tracked.any (fun col => changedCell (getAttr n.vals col) (getAttr c.attrs col))

/-- The effect of the closing `UPDATE` on one matched row. -/
def closeRow (now : Nat) (r : Scd2Row) : Scd2Row :=
  { r with date_fin_validite := some now, est_actif := false,
           date_modification := now }

/-- The closing `UPDATE ... SET date_fin_validite = GETDATE(), est_actif = 0,
date_modification = GETDATE() WHERE {bk} = :bk AND est_actif = 1`. -/
def closeRows (now : Nat) (bk : Val) (st : List Scd2Row) : List Scd2Row :=
  st.map (fun r =>
    if r.bk = bk ∧ r.est_actif = true then closeRow now r
    else r)

/-- `SELECT * ... WHERE {bk} = :bk AND est_actif = 0 ORDER BY version DESC`
followed by `.iloc[0]`: the first row of maximal version (earlier row kept
on ties), `none` when the selection is empty (pandas raises there). -/
def maxVersionRow (l : List Scd2Row) : Option Scd2Row :=
  match l with
  | [] => none
  | r :: rs => some (rs.foldl (fun b x => if b.version < x.version then x else b) r)

/-- The store-assigned identity value for the popped `geo_id`:
one more than the largest surrogate key in the table. -/
def freshGeoId (l : List Scd2Row) : Nat :=
  (l.foldl (fun m r => max m r.geo_id) 0) + 1

/-- Lines 191-195: overwrite the tracked columns of the cloned record with
the staged values, only where the staged value is non-null. -/
def applyTracked (tracked : List String) (n : Scd2New)
    (attrs : List (String × Cell)) : List (String × Cell) :=
  tracked.foldl (fun a col =>
    match getAttr n.vals col with
    | some v => setAttr a col (some v)
    | none => a) attrs

/-- Per-pair loop body of `apply_scd_type2`: on a changed pair, close the
key's active rows, re-read the highest-version closed row as clone source,
build the new version (tracked values applied, fresh validity window,
`version = old_version + 1`, store-assigned surrogate key) and append it.
A failing key raises with nothing committed; an empty read-back raises
(`iloc[0]` on no rows). -/
def scd2Step (failing : Val → Bool) (now : Nat) (tracked : List String)
    (acc : List Scd2Row × Nat × Bool) (p : Scd2New × Scd2Row) :
    List Scd2Row × Nat × Bool :=
  let (tbl, cnt, errored) := acc
  if errored then acc
  else if scd2Changed tracked p.1 p.2 then
    if failing p.1.bk then (tbl, cnt, true)
    else
      let oldVersion := p.2.version
      let closed := closeRows now p.1.bk tbl
      match maxVersionRow
          (closed.filter (fun r => r.bk = p.1.bk ∧ r.est_actif = false)) with
      | none => (tbl, cnt, true)
      | some oldRec =>
        let newRow : Scd2Row :=
          { geo_id := freshGeoId closed
            bk := oldRec.bk
            attrs := applyTracked tracked p.1 oldRec.attrs
            version := oldVersion + 1
            est_actif := true
            date_debut_validite := now
            date_fin_validite := none
            date_creation := now
            date_modification := now }
        (closed ++ [newRow], cnt + 1, errored)
  else acc

/-- `apply_scd_type2(engine, table, business_key, tracked_columns, df_new)`:
read the active rows; return 0 if none; otherwise walk the merged pairs. -/
def apply_scd_type2 (failing : Val → Bool) (now : Nat) (tracked : List String)
    (table : List Scd2Row) (dfNew : List Scd2New) :
    List Scd2Row × Nat × Bool :=
  let cur := table.filter (fun r => r.est_actif)
  if cur = [] then (table, 0, false)
  else (scd2Merged dfNew cur).foldl (scd2Step failing now tracked) (table, 0, false)

/-! ## Fact loading (`load_facts.py`)

The store state visible to the claims.  Only the staging tables the
claims exercise are modelled (`stg_population`, `stg_emploi_chomage`,
`stg_menage`); `calls` counts primitive per-table store operations
(existence check, staging read, dimension read, fact count, insert, log
write).  Timestamps and log-row contents are not modelled. -/

/-- One staged `stg_population` row, in the source shape where the `YEAR`
and `GEO_CODE` columns are present (the path lines 124-138 take). -/
structure PopStgRow where
  year : Int
  geo_code : String
  obs_value : Option Int
deriving DecidableEq, Repr

/-- One `dwh.fait_population` row; the key columns are nullable in the
dataframe, so they are `Option Nat` here. -/
structure PopFactRow where
  temps_id : Option Nat
  geo_id : Option Nat
  demo_id : Nat
  population : Option Int
  source_fichier : String
deriving DecidableEq, Repr

/-- Which of the case-insensitive alias columns exist in a staged
dataframe (`col_map` membership tests, lines 456-476 / 577-597). -/
structure AliasFlags where
  hasTimePeriod : Bool
  hasYear : Bool
  hasAnnee : Bool
  hasDepartement : Bool
  hasDepartementCode : Bool
  hasDeptCode : Bool
deriving DecidableEq, Repr

/-- One staged `stg_emploi_chomage` row: whichever year/department alias
column is present carries `yearVal`/`deptVal`. -/
structure EmploiStgRow where
  yearVal : Int
  deptVal : String
  empsta : String
  obs : Int
deriving DecidableEq, Repr

/-- The staged employment dataframe: alias-column presence plus rows. -/
structure EmploiStg where
  flags : AliasFlags
  rows : List EmploiStgRow
deriving DecidableEq, Repr

/-- One staged `stg_menage` row. -/
structure MenageStgRow where
  yearVal : Int
  deptVal : String
  rp_measure : String
  obs : Int
deriving DecidableEq, Repr

/-- The staged households dataframe. -/
structure MenageStg where
  flags : AliasFlags
  rows : List MenageStgRow
deriving DecidableEq, Repr

/-- One `dwh.fait_emploi` row (keys are `int(...)`-cast before insert). -/
structure EmploiFactRow where
  temps_id : Nat
  geo_id : Nat
  demo_id : Nat
  population_active : Option Int
  population_en_emploi : Option Int
  population_chomeurs : Option Int
  taux_chomage : Option Rat
  source_fichier : String
deriving DecidableEq, Repr

/-- One `dwh.fait_menages` row. -/
structure MenageFactRow where
  temps_id : Nat
  geo_id : Nat
  nb_menages : Option Int
  nb_personnes : Option Int
  taille_moyenne_menage : Option Rat
  source_fichier : String
deriving DecidableEq, Repr

/-- The relational store as the fact loaders see it.  A staging table is
absent when its field is `none` (the `INFORMATION_SCHEMA` check fails). -/
structure Store where
  stgPopulation : Option (List PopStgRow)
  stgEmploi : Option EmploiStg
  stgMenage : Option MenageStg
  dimTemps : List (Int × Nat)
  dimGeo : List (String × Nat)
  dimDemoMin : Option Nat
  faitPopulation : List PopFactRow
  faitEmploi : List EmploiFactRow
  faitMenages : List MenageFactRow
  calls : Nat
deriving DecidableEq, Repr

/-- One primitive store round-trip. -/
def bump (st : Store) : Store := { st with calls := st.calls + 1 }

@[simp] theorem bump_stgPopulation (st : Store) :
    (bump st).stgPopulation = st.stgPopulation := rfl

@[simp] theorem bump_stgEmploi (st : Store) :
    (bump st).stgEmploi = st.stgEmploi := rfl

@[simp] theorem bump_stgMenage (st : Store) :
    (bump st).stgMenage = st.stgMenage := rfl

@[simp] theorem bump_dimTemps (st : Store) :
    (bump st).dimTemps = st.dimTemps := rfl

@[simp] theorem bump_dimGeo (st : Store) :
    (bump st).dimGeo = st.dimGeo := rfl

@[simp] theorem bump_dimDemoMin (st : Store) :
    (bump st).dimDemoMin = st.dimDemoMin := rfl

@[simp] theorem bump_faitPopulation (st : Store) :
    (bump st).faitPopulation = st.faitPopulation := rfl

@[simp] theorem bump_faitEmploi (st : Store) :
    (bump st).faitEmploi = st.faitEmploi := rfl

@[simp] theorem bump_faitMenages (st : Store) :
    (bump st).faitMenages = st.faitMenages := rfl

@[simp] theorem bump_calls (st : Store) :
    (bump st).calls = st.calls + 1 := rfl

/-- Dimension-key lookup built by `get_dim_mapping`: first matching
natural key wins. -/
def dimLookup [DecidableEq α] (m : List (α × β)) (k : α) : Option β :=
  (m.find? (fun p => p.1 = k)).map (fun p => p.2)

/-- `str.zfill(2)` on a department code (codes here carry no sign). -/
def zfill2 (s : String) : String :=
  if s.length ≥ 2 then s
  else (String.mk (List.replicate (2 - s.length) '0')).append s

/-- Python's `x or d` on an optional count (`result.scalar() or 1`):
`None` and `0` both fall back to the default. -/
def pyOrNat (o : Option Nat) (d : Nat) : Nat :=
  match o with
  | none => d
  | some 0 => d
  | some (k + 1) => k + 1

/-- Lines 130-155 of `load_fait_population`: key resolution for one staged
row; the row survives `dropna(subset=['temps_id','geo_id'])` exactly when
both its year and its zero-padded department resolve. -/
def popInsertRow (tempsMap : List (Int × Nat)) (geoMap : List (String × Nat))
    (demoId : Nat) (r : PopStgRow) : Option PopFactRow :=
  match dimLookup tempsMap r.year, dimLookup geoMap (zfill2 r.geo_code) with
  | some t, some g =>
    some { temps_id := some t, geo_id := some g, demo_id := demoId,
           population := r.obs_value, source_fichier := "stg_population" }
  | _, _ => none

/-- The `df_insert` dataframe of `load_fait_population`. -/
def popInserts (tempsMap : List (Int × Nat)) (geoMap : List (String × Nat))
    (demoId : Nat) (dfStg : List PopStgRow) : List PopFactRow :=
  dfStg.filterMap (popInsertRow tempsMap geoMap demoId)

/-- `load_fait_population(engine)` (lines 90-171): existence check, staging
read, the two dimension-map reads, default `demo_id`, per-row key
resolution with `dropna(subset=['temps_id','geo_id'])`, the `COUNT(*)`
idempotence check, then the bulk insert. -/
def load_fait_population (st : Store) : Except String (Store × Nat) :=
  let st1 := bump st
  match st.stgPopulation with
  | none => .ok (st1, 0)
  | some dfStg =>
    let st2 := bump st1
    if dfStg = [] then .ok (st2, 0)
    else
      let st3 := bump (bump st2)
      let st4 := bump st3
      let demoId := pyOrNat st.dimDemoMin 1
      let dfInsert := popInserts st.dimTemps st.dimGeo demoId dfStg
      if dfInsert = [] then .ok (st4, 0)
      else
        let st5 := bump st4
        if st.faitPopulation.length > 0 then .ok (st5, 0)
        else
          let st6 := bump st5
          .ok ({ st6 with faitPopulation := st.faitPopulation ++ dfInsert },
               dfInsert.length)

/-- Line 458 alias chain: `TIME_PERIOD`, `YEAR`, `ANNEE`. -/
def yearAliasPresent (f : AliasFlags) : Bool :=
  f.hasTimePeriod || f.hasYear || f.hasAnnee

/-- Line 468 alias chain: `DEPARTEMENT`, `DEPARTEMENT_CODE`, `DEPT_CODE`. -/
def deptAliasPresent (f : AliasFlags) : Bool :=
  f.hasDepartement || f.hasDepartementCode || f.hasDeptCode

/-- The `groupby(['annee', 'dept_code'])` key of a staged employment row. -/
def emploiKey (r : EmploiStgRow) : Int × String := (r.yearVal, zfill2 r.deptVal)

/-- The `groupby(['annee', 'dept_code'])` key of a staged household row. -/
def menageKey (r : MenageStgRow) : Int × String := (r.yearVal, zfill2 r.deptVal)

/-- Distinct group keys in order of first occurrence. -/
def groupKeys (ks : List (Int × String)) : List (Int × String) :=
  ks.foldl (fun acc k => if k ∈ acc then acc else acc ++ [k]) []

/-- `group[...][obs_col].sum()` over staged employment rows. -/
def sumObsE (l : List EmploiStgRow) : Int := l.foldl (fun s r => s + r.obs) 0

/-- `group[...][obs_col].sum()` over staged household rows. -/
def sumObsM (l : List MenageStgRow) : Int := l.foldl (fun s r => s + r.obs) 0

/-- Lines 495-497:
`taux_chomage = None`;
`if pop_active and pop_active > 0 and pop_chomeurs:`
`taux_chomage = (pop_chomeurs / pop_active) * 100` —
with Python truthiness on both operands. -/
def emploiTaux (pa pc : Option Int) : Option Rat :=
  match pa with
  | none => none
  | some a =>
    if a = 0 then none
    else if a > 0 then
      match pc with
      | none => none
      | some c => if c = 0 then none else some ((c : Rat) / (a : Rat) * 100)
    else none

/-- Lines 615-617, same shape for household size (`nb_personnes / nb_menages`). -/
def menageTaille (nm np : Option Int) : Option Rat :=
  match nm with
  | none => none
  | some m =>
    if m = 0 then none
    else if m > 0 then
      match np with
      | none => none
      | some p => if p = 0 then none else some ((p : Rat) / (m : Rat))
    else none

/-- Lines 484-508: one `(annee, dept)` group of `load_fait_emploi`.
Key resolution uses Python truthiness (`if not temps_id or not geo_id:
continue`), each measure is summed only when its `EMPSTA_ENQ` code occurs
in the group, and the ratio follows `emploiTaux`. -/
def emploiGroupRecord (tempsMap : List (Int × Nat)) (geoMap : List (String × Nat))
    (demoId : Nat) (rows : List EmploiStgRow) (k : Int × String) :
    Option EmploiFactRow :=
  let group := rows.filter (fun r => emploiKey r = k)
  match dimLookup tempsMap k.1, dimLookup geoMap k.2 with
  | some t, some g =>
    if t = 0 || g = 0 then none
    else
      let pa := if group.any (fun r => r.empsta = "1T2")
        then some (sumObsE (group.filter (fun r => r.empsta = "1T2"))) else none
      let pe := if group.any (fun r => r.empsta = "1")
        then some (sumObsE (group.filter (fun r => r.empsta = "1"))) else none
      let pc := if group.any (fun r => r.empsta = "2")
        then some (sumObsE (group.filter (fun r => r.empsta = "2"))) else none
      some { temps_id := t, geo_id := g, demo_id := demoId,
             population_active := pa, population_en_emploi := pe,
             population_chomeurs := pc, taux_chomage := emploiTaux pa pc,
             source_fichier := "stg_emploi_chomage" }
  | _, _ => none

/-- The aggregated `records` list of `load_fait_emploi` (lines 483-508). -/
def emploiRecords (tempsMap : List (Int × Nat)) (geoMap : List (String × Nat))
    (demoId : Nat) (rows : List EmploiStgRow) : List EmploiFactRow :=
  (groupKeys (rows.map emploiKey)).filterMap
    (emploiGroupRecord tempsMap geoMap demoId rows)

/-- `load_fait_emploi(engine)` (lines 414-531): existence check, staging
read, dimension reads, default `demo_id`, then the alias-column checks —
a missing year or department alias logs an error and returns 0 — then the
group aggregation, the idempotence check and the insert (plus the final
`log_etl_db` write). -/
def load_fait_emploi (st : Store) : Except String (Store × Nat) :=
  let st1 := bump st
  match st.stgEmploi with
  | none => .ok (st1, 0)
  | some stg =>
    let st2 := bump st1
    if stg.rows = [] then .ok (st2, 0)
    else
      let st3 := bump (bump st2)
      let st4 := bump st3
      let demoId := pyOrNat st.dimDemoMin 1
      if yearAliasPresent stg.flags = false then .ok (st4, 0)
      else if deptAliasPresent stg.flags = false then .ok (st4, 0)
      else
        let records := emploiRecords st.dimTemps st.dimGeo demoId stg.rows
        if records = [] then .ok (st4, 0)
        else
          let st5 := bump st4
          if st.faitEmploi.length > 0 then .ok (st5, 0)
          else
            let st6 := bump (bump st5)
            .ok ({ st6 with faitEmploi := st.faitEmploi ++ records },
                 records.length)

/-- Line 612-613 `... .sum() or None`: a zero sum (including the sum over
no rows) is falsy and becomes `None`. -/
def pyOrQ (s : Int) : Option Int := if s = 0 then none else some s

/-- Lines 612-617: the three measures of one `(annee, dept)` group of
`load_fait_menages`: `(nb_menages, nb_personnes, taille_moyenne_menage)`. -/
def menageMesures (group : List MenageStgRow) :
    Option Int × Option Int × Option Rat :=
  let nm := pyOrQ (sumObsM (group.filter (fun r => r.rp_measure = "DWELLINGS")))
  let np := pyOrQ (sumObsM (group.filter (fun r => r.rp_measure = "DWELLINGS_POPSIZE")))
  (nm, np, menageTaille nm np)

/-- Lines 605-626: one group of `load_fait_menages`. -/
def menageGroupRecord (tempsMap : List (Int × Nat)) (geoMap : List (String × Nat))
    (rows : List MenageStgRow) (k : Int × String) : Option MenageFactRow :=
  let group := rows.filter (fun r => menageKey r = k)
  match dimLookup tempsMap k.1, dimLookup geoMap k.2 with
  | some t, some g =>
    if t = 0 || g = 0 then none
    else
      let (nm, np, taille) := menageMesures group
      some { temps_id := t, geo_id := g, nb_menages := nm, nb_personnes := np,
             taille_moyenne_menage := taille, source_fichier := "stg_menages" }
  | _, _ => none

/-- The aggregated `records` list of `load_fait_menages` (lines 604-626). -/
def menageRecords (tempsMap : List (Int × Nat)) (geoMap : List (String × Nat))
    (rows : List MenageStgRow) : List MenageFactRow :=
  (groupKeys (rows.map menageKey)).filterMap
    (menageGroupRecord tempsMap geoMap rows)

/-- `load_fait_menages(engine)` (lines 534-649), same skeleton as
`load_fait_emploi`. -/
def load_fait_menages (st : Store) : Except String (Store × Nat) :=
  let st1 := bump st
  match st.stgMenage with
  | none => .ok (st1, 0)
  | some stg =>
    let st2 := bump st1
    if stg.rows = [] then .ok (st2, 0)
    else
      let st3 := bump (bump st2)
      if yearAliasPresent stg.flags = false then .ok (st3, 0)
      else if deptAliasPresent stg.flags = false then .ok (st3, 0)
      else
        let records := menageRecords st.dimTemps st.dimGeo stg.rows
        if records = [] then .ok (st3, 0)
        else
          let st4 := bump st3
          if st.faitMenages.length > 0 then .ok (st4, 0)
          else
            let st5 := bump (bump st4)
            .ok ({ st5 with faitMenages := st.faitMenages ++ records },
                 records.length)

/-! ## The orchestrator (`main`, lines 662-796) -/

/-- One entry of the per-table report (`rapport[nom]`); wall-clock fields
are not modelled. -/
structure Report where
  statut : String
  nb_lignes : Nat
  erreur : Option String
deriving DecidableEq, Repr

/-- `_staging_exists(engine, table_name)` (lines 652-659): one
`INFORMATION_SCHEMA` round-trip; only the modelled staging tables exist. -/
def staging_exists (st : Store) (t : String) : Store × Bool :=
  (bump st,
    if t = "stg_population" then st.stgPopulation.isSome
    else if t = "stg_emploi_chomage" then st.stgEmploi.isSome
    else if t = "stg_menage" ∨ t = "stg_menages" then st.stgMenage.isSome
    else false)

/-- Line 737: collect the required staging tables that are missing. -/
def checkMissing (st : Store) (reqs : List String) : Store × List String :=
  reqs.foldl (fun acc t =>
    let r := staging_exists acc.1 t
    (r.1, if r.2 then acc.2 else acc.2 ++ [t])) (st, [])

/-- One iteration of the `for nom, fn, stg_requises in TABLES` loop:
cascade branch (no store call at all), missing-staging branch, and the
guarded load whose result is reported `OK` when rows were inserted and
`SKIP` otherwise, with exceptions caught as `ERREUR`. -/
def mainStep (stagingFailed : Bool)
    (acc : List (String × Report) × Store × Nat × Bool)
    (entry : String × List String × (Store → Except String (Store × Nat))) :
    List (String × Report) × Store × Nat × Bool :=
  let (rep, st, total, hasErr) := acc
  let (nom, reqs, fn) := entry
  if stagingFailed then
    (rep ++ [(nom, { statut := "IGNORE", nb_lignes := 0,
                     erreur := some "Staging global en echec - etape ignoree en cascade" })],
     st, total, hasErr)
  else
    let r := checkMissing st reqs
    if r.2 ≠ [] then
      (rep ++ [(nom, { statut := "IGNORE", nb_lignes := 0,
                       erreur := some "Tables staging manquantes" })],
       bump r.1, total, hasErr)
    else
      match fn r.1 with
      | .ok (st2, nb) =>
        (rep ++ [(nom, { statut := if nb > 0 then "OK" else "SKIP",
                         nb_lignes := nb, erreur := none })],
         bump st2, total + nb, hasErr)
      | .error e =>
        (rep ++ [(nom, { statut := "ERREUR", nb_lignes := 0, erreur := some e })],
         bump r.1, total, true)

/-- The dependency-driven loop of `main` over the `TABLES` list, starting
from an empty report.  Returns (report, store, total, has_error). -/
def mainLoop (stagingFailed : Bool)
    (tables : List (String × List String × (Store → Except String (Store × Nat))))
    (st : Store) : List (String × Report) × Store × Nat × Bool :=
  tables.foldl (mainStep stagingFailed) ([], st, 0, false)

/-! ## Helper lemmas -/

/-- The cascade branch of the orchestrator loop only appends `IGNORE`
entries and never touches the store. -/
theorem mainLoop_cascade_aux
    (tables : List (String × List String × (Store → Except String (Store × Nat))))
    : ∀ (rep : List (String × Report)) (st : Store) (total : Nat) (hasErr : Bool),
      tables.foldl (mainStep true) (rep, st, total, hasErr)
        = (rep ++ tables.map (fun e => (e.1,
            { statut := "IGNORE", nb_lignes := 0,
              erreur := some "Staging global en echec - etape ignoree en cascade" })),
           st, total, hasErr) := by
  induction tables with
  | nil => intro rep st total hasErr; simp
  | cons e ts ih =>
    intro rep st total hasErr
    obtain ⟨nom, reqs, fn⟩ := e
    have hstep : mainStep true (rep, st, total, hasErr) (nom, reqs, fn)
        = (rep ++ [(nom, (⟨"IGNORE", 0, some "Staging global en echec - etape ignoree en cascade"⟩ : Report))],
           st, total, hasErr) := rfl
    show ts.foldl (mainStep true) (mainStep true (rep, st, total, hasErr) (nom, reqs, fn)) = _
    rw [hstep, ih]
    simp

/-- `menageTaille` is null whenever the numerator operand is null. -/
theorem menageTaille_none_right (nm : Option Int) : menageTaille nm none = none := by
  cases nm with
  | none => rfl
  | some m =>
    unfold menageTaille
    by_cases h : m = 0
    · simp [h]
    · by_cases h2 : m > 0 <;> simp [h, h2]

/-! ## C9 -/

/-- C9: each SCD policy applied to a dimension with no current rows
(for Type 2: no active rows) returns 0, reports no error, and leaves the
dimension table exactly as it was. -/
theorem c9_scd_empty_dimension_noop :
    (∀ (f : Val → Bool) (now : Nat) (dfNew : List Scd1New),
       apply_scd_type1 f now [] dfNew = ([], 0, false))
    ∧ (∀ (f : Val → Bool) (now : Nat) (dfNew : List Scd1New),
       apply_scd_type3 f now [] dfNew = ([], 0, false))
    ∧ (∀ (f : Val → Bool) (now : Nat) (tracked : List String)
         (table : List Scd2Row) (dfNew : List Scd2New),
       table.filter (fun r => r.est_actif) = [] →
       apply_scd_type2 f now tracked table dfNew = (table, 0, false)) := by
  refine ⟨?_, ?_, ?_⟩
  · intro f now dfNew; simp [apply_scd_type1]
  · intro f now dfNew; simp [apply_scd_type3]
  · intro f now tracked table dfNew h
    unfold apply_scd_type2
    rw [h]
    simp

/-- C9 witness: the no-op behaviour at a concrete inactive-only Type-2
table and at empty Type-1/Type-3 tables. -/
theorem c9_scd_empty_dimension_noop_witness :
    apply_scd_type1 (fun _ => false) 3 []
        [{ bk := Val.s "59", newVal := some (Val.s "Nord") }] = ([], 0, false)
    ∧ apply_scd_type3 (fun _ => false) 3 []
        [{ bk := Val.s "59", newVal := some (Val.s "Nord") }] = ([], 0, false)
    ∧ apply_scd_type2 (fun _ => false) 3 ["departement_nom"]
        [{ geo_id := 1, bk := Val.s "59", attrs := [], version := 2,
           est_actif := false, date_debut_validite := 0,
           date_fin_validite := some 1, date_creation := 0,
           date_modification := 0 }]
        [{ bk := Val.s "59", vals := [("departement_nom", some (Val.s "Nord"))] }]
      = ([{ geo_id := 1, bk := Val.s "59", attrs := [], version := 2,
            est_actif := false, date_debut_validite := 0,
            date_fin_validite := some 1, date_creation := 0,
            date_modification := 0 }], 0, false) :=
  ⟨c9_scd_empty_dimension_noop.1 (fun _ => false) 3 _,
   c9_scd_empty_dimension_noop.2.1 (fun _ => false) 3 _,
   c9_scd_empty_dimension_noop.2.2 (fun _ => false) 3 ["departement_nom"] _ _ (by decide)⟩

/-! ## C5 -/

/-- C5: with the staging-failed flag set, the orchestrator loop reports
`IGNORE` with zero rows for every fact table in the dependency list,
attempts no per-table store call (the store, its call counter included,
is returned untouched), inserts no rows, and flags no error. -/
theorem c5_cascading_skip
    (tables : List (String × List String × (Store → Except String (Store × Nat))))
    (st : Store) :
    mainLoop true tables st
      = (tables.map (fun e => (e.1,
          { statut := "IGNORE", nb_lignes := 0,
            erreur := some "Staging global en echec - etape ignoree en cascade" })),
         st, 0, false) := by
  unfold mainLoop
  rw [mainLoop_cascade_aux tables [] st 0 false]
  simp

/-! ## C10 -/

/-- C10: in `load_fait_menages`, a group whose summed `DWELLINGS` measure
is zero stores a null `nb_menages` (and hence a null
`taille_moyenne_menage`), and a group whose summed `DWELLINGS_POPSIZE`
measure is zero stores a null `nb_personnes` (and a null ratio): a genuine
zero total is stored exactly like an absent measure. -/
theorem c10_menages_zero_sum_is_null
    (tempsMap : List (Int × Nat)) (geoMap : List (String × Nat))
    (rows : List MenageStgRow) (k : Int × String) (rec : MenageFactRow)
    (hrec : menageGroupRecord tempsMap geoMap rows k = some rec) :
    (sumObsM (((rows.filter (fun r => menageKey r = k))).filter
        (fun r => r.rp_measure = "DWELLINGS")) = 0 →
      rec.nb_menages = none ∧ rec.taille_moyenne_menage = none)
    ∧ (sumObsM (((rows.filter (fun r => menageKey r = k))).filter
        (fun r => r.rp_measure = "DWELLINGS_POPSIZE")) = 0 →
      rec.nb_personnes = none ∧ rec.taille_moyenne_menage = none) := by
  cases ht : dimLookup tempsMap k.1 with
  | none => simp [menageGroupRecord, ht] at hrec
  | some t =>
    cases hg : dimLookup geoMap k.2 with
    | none => simp [menageGroupRecord, ht, hg] at hrec
    | some g =>
      by_cases hz : (t = 0 || g = 0) = true
      · simp [menageGroupRecord, ht, hg, hz] at hrec
      · simp only [menageGroupRecord, menageMesures, ht, hg, hz, if_false,
          Bool.false_eq_true, Option.some.injEq] at hrec
        subst hrec
        constructor
        · intro hsum
          simp only [pyOrQ, hsum, if_pos rfl]
          exact ⟨rfl, rfl⟩
        · intro hsum
          simp only [pyOrQ, hsum, if_pos rfl]
          exact ⟨rfl, menageTaille_none_right _⟩

/-- C10 witness: a concrete group where the `DWELLINGS` rows sum to zero
and the `DWELLINGS_POPSIZE` rows sum to a nonzero value: the record stores
`nb_menages = NULL` and a null ratio. -/
theorem c10_menages_zero_sum_is_null_witness :
    menageGroupRecord [((2021 : Int), 1)] [("59", 2)]
        [{ yearVal := 2021, deptVal := "59", rp_measure := "DWELLINGS", obs := 0 },
         { yearVal := 2021, deptVal := "59", rp_measure := "DWELLINGS_POPSIZE", obs := 5 }]
        (2021, "59")
      = some { temps_id := 1, geo_id := 2, nb_menages := none,
               nb_personnes := some 5, taille_moyenne_menage := none,
               source_fichier := "stg_menages" }
    ∧ ({ temps_id := 1, geo_id := 2, nb_menages := none,
         nb_personnes := some 5, taille_moyenne_menage := none,
         source_fichier := "stg_menages" } : MenageFactRow).nb_menages = none
    ∧ ({ temps_id := 1, geo_id := 2, nb_menages := none,
         nb_personnes := some 5, taille_moyenne_menage := none,
         source_fichier := "stg_menages" } : MenageFactRow).taille_moyenne_menage = none :=
  ⟨by decide,
   ((c10_menages_zero_sum_is_null [((2021 : Int), 1)] [("59", 2)]
      [{ yearVal := 2021, deptVal := "59", rp_measure := "DWELLINGS", obs := 0 },
       { yearVal := 2021, deptVal := "59", rp_measure := "DWELLINGS_POPSIZE", obs := 5 }]
      (2021, "59") _ (by decide)).1 (by decide)).1,
   ((c10_menages_zero_sum_is_null [((2021 : Int), 1)] [("59", 2)]
      [{ yearVal := 2021, deptVal := "59", rp_measure := "DWELLINGS", obs := 0 },
       { yearVal := 2021, deptVal := "59", rp_measure := "DWELLINGS_POPSIZE", obs := 5 }]
      (2021, "59") _ (by decide)).1 (by decide)).2⟩

/-! ## C7 -/

/-- C7 counterexample: with both operands present and a strictly positive
denominator but a zero numerator, the code leaves both ratios null
(`taux_chomage` for unemployed = 0 among 10 actives, and
`taille_moyenne_menage` for 0 persons over 4 households), where the claim
demands a computed ratio of 0. -/
theorem c7_ratio_counterexample :
    emploiTaux (some 10) (some 0) = none
    ∧ menageTaille (some 4) (some 0) = none := by
  constructor <;> decide

/-- The amended C7 rule, stated from its words: the ratio is computed
exactly when the denominator is present and strictly positive AND the
numerator is present and nonzero; otherwise it is left null. -/
def tauxAmended (pa pc : Option Int) : Option Rat :=
  match pa, pc with
  | some a, some c => if 0 < a ∧ c ≠ 0 then some ((c : Rat) / (a : Rat) * 100) else none
  | _, _ => none

/-- The amended C7 rule for the household-size ratio. -/
def tailleAmended (nm np : Option Int) : Option Rat :=
  match nm, np with
  | some m, some p => if 0 < m ∧ p ≠ 0 then some ((p : Rat) / (m : Rat)) else none
  | _, _ => none

/-- C7 (amended): in both `load_fait_emploi` and `load_fait_menages` the
derived ratio is computed exactly when the denominator is present and
strictly positive and the numerator is present and nonzero; in every
other case — numerator zero included — it is left null. -/
theorem c7_ratio_guard_amended (pa pc : Option Int) :
    emploiTaux pa pc = tauxAmended pa pc
    ∧ menageTaille pa pc = tailleAmended pa pc := by
  constructor
  · cases pa with
    | none => rfl
    | some a =>
      cases pc with
      | none =>
        unfold emploiTaux tauxAmended
        by_cases h : a = 0
        · simp [h]
        · by_cases h2 : a > 0 <;> simp [h, h2]
      | some c =>
        unfold emploiTaux tauxAmended
        by_cases h : a = 0
        · simp [h]
        · by_cases h2 : a > 0
          · by_cases h3 : c = 0 <;> simp [h, h2, h3]
          · simp [h, h2]
  · cases pa with
    | none => rfl
    | some a =>
      cases pc with
      | none =>
        unfold menageTaille tailleAmended
        by_cases h : a = 0
        · simp [h]
        · by_cases h2 : a > 0 <;> simp [h, h2]
      | some c =>
        unfold menageTaille tailleAmended
        by_cases h : a = 0
        · simp [h]
        · by_cases h2 : a > 0
          · by_cases h3 : c = 0 <;> simp [h, h2, h3]
          · simp [h, h2]

/-! ## C3 -/

/-- C3: in all three policies, for a business key present in both the
staged data and the current rows, the tracked value is treated as changed
(update applied, counter incremented) exactly when old and new values are
both non-null and their string renderings differ; when either value is
null or the renderings agree, the table is returned unchanged and the
count is 0. -/
theorem c3_change_detection :
    (∀ (f : Val → Bool) (now : Nat) (a : Scd1Row) (n : Scd1New) (x y : Val),
      a.bk = n.bk → f n.bk = false →
      n.newVal = some x → a.colVal = some y → x.str ≠ y.str →
      apply_scd_type1 f now [a] [n]
        = ([{ a with
              colVal := some (Val.s x.str),
              date_modification := some now }], 1, false))
    ∧ (∀ (f : Val → Bool) (now : Nat) (a : Scd1Row) (n : Scd1New),
      a.bk = n.bk →
      (n.newVal = none ∨ a.colVal = none ∨
        (∃ x y, n.newVal = some x ∧ a.colVal = some y ∧ x.str = y.str)) →
      apply_scd_type1 f now [a] [n] = ([a], 0, false))
    ∧ (∀ (f : Val → Bool) (now : Nat) (a : Scd3Row) (n : Scd1New) (x y : Val),
      a.bk = n.bk → f n.bk = false →
      n.newVal = some x → a.curVal = some y → x.str ≠ y.str →
      apply_scd_type3 f now [a] [n]
        = ([{ a with
              prevVal := a.curVal, curVal := some (Val.s x.str),
              date_changement := some now, date_modification := some now }],
           1, false))
    ∧ (∀ (f : Val → Bool) (now : Nat) (a : Scd3Row) (n : Scd1New),
      a.bk = n.bk →
      (n.newVal = none ∨ a.curVal = none ∨
        (∃ x y, n.newVal = some x ∧ a.curVal = some y ∧ x.str = y.str)) →
      apply_scd_type3 f now [a] [n] = ([a], 0, false))
    ∧ (∀ (f : Val → Bool) (now : Nat) (col : String) (a : Scd2Row) (n : Scd2New)
        (x y : Val),
      a.est_actif = true → a.bk = n.bk → f n.bk = false →
      getAttr n.vals col = some x → getAttr a.attrs col = some y → x.str ≠ y.str →
      (apply_scd_type2 f now [col] [a] [n]).2 = (1, false)
      ∧ (apply_scd_type2 f now [col] [a] [n]).1.length = 2)
    ∧ (∀ (f : Val → Bool) (now : Nat) (col : String) (a : Scd2Row) (n : Scd2New),
      a.est_actif = true → a.bk = n.bk →
      (getAttr n.vals col = none ∨ getAttr a.attrs col = none ∨
        (∃ x y, getAttr n.vals col = some x ∧ getAttr a.attrs col = some y
          ∧ x.str = y.str)) →
      apply_scd_type2 f now [col] [a] [n] = ([a], 0, false)) := by
  refine ⟨?_, ?_, ?_, ?_, ?_, ?_⟩
  · intro f now a n x y hbk hf hnx hay hne
    have hmerge : scd1Merged [n] [a] = [(n, a)] := by
      simp [scd1Merged, hbk]
    unfold apply_scd_type1
    rw [if_neg (by simp)]
    rw [hmerge]
    simp only [List.foldl, scd1Step, hnx, hay, hf]
    simp only [if_pos hne, Bool.false_eq_true, if_false]
    simp [scd1Update, hbk]
  · intro f now a n hbk hnull
    have hmerge : scd1Merged [n] [a] = [(n, a)] := by
      simp [scd1Merged, hbk]
    unfold apply_scd_type1
    rw [if_neg (by simp)]
    rw [hmerge]
    simp only [List.foldl]
    rcases hnull with h | h | ⟨x, y, hx, hy, hxy⟩
    · simp [scd1Step, h]
    · cases hn : n.newVal <;> simp [scd1Step, h, hn]
    · simp [scd1Step, hx, hy, hxy]
  · intro f now a n x y hbk hf hnx hay hne
    have hmerge : scd3Merged [n] [a] = [(n, a)] := by
      simp [scd3Merged, hbk]
    unfold apply_scd_type3
    rw [if_neg (by simp)]
    rw [hmerge]
    simp only [List.foldl, scd3Step, hnx, hay, hf]
    simp only [if_pos hne, Bool.false_eq_true, if_false]
    simp [scd3Update, hbk, hay]
  · intro f now a n hbk hnull
    have hmerge : scd3Merged [n] [a] = [(n, a)] := by
      simp [scd3Merged, hbk]
    unfold apply_scd_type3
    rw [if_neg (by simp)]
    rw [hmerge]
    simp only [List.foldl]
    rcases hnull with h | h | ⟨x, y, hx, hy, hxy⟩
    · simp [scd3Step, h]
    · cases hn : n.newVal <;> simp [scd3Step, h, hn]
    · simp [scd3Step, hx, hy, hxy]
  · intro f now col a n x y hact hbk hf hnx hay hne
    have hcur : ([a].filter (fun r => r.est_actif)) = [a] := by
      simp [hact]
    have hmerge : scd2Merged [n] [a] = [(n, a)] := by
      simp [scd2Merged, hbk]
    have hchanged : scd2Changed [col] n a = true := by
      simp only [scd2Changed, List.any_cons, List.any_nil, Bool.or_false]
      simp [changedCell, hnx, hay, hne]
    have hclosed : closeRows now n.bk [a]
        = [{ a with
             date_fin_validite := some now, est_actif := false,
             date_modification := now }] := by
      simp [closeRows, closeRow, hbk, hact]
    unfold apply_scd_type2
    rw [hcur]
    rw [if_neg (by simp)]
    rw [hmerge]
    simp only [List.foldl, scd2Step, hchanged, hf]
    simp only [Bool.false_eq_true, if_false, if_true, hclosed]
    simp [maxVersionRow, hbk]
  · intro f now col a n hact hbk hnull
    have hcur : ([a].filter (fun r => r.est_actif)) = [a] := by
      simp [hact]
    have hmerge : scd2Merged [n] [a] = [(n, a)] := by
      simp [scd2Merged, hbk]
    have hchanged : scd2Changed [col] n a = false := by
      simp only [scd2Changed, List.any_cons, List.any_nil, Bool.or_false]
      rcases hnull with h | h | ⟨x, y, hx, hy, hxy⟩
      · simp [changedCell, h]
      · cases hn : getAttr n.vals col <;> simp [changedCell, h, hn]
      · simp [changedCell, hx, hy, hxy]
    unfold apply_scd_type2
    rw [hcur]
    rw [if_neg (by simp)]
    rw [hmerge]
    simp [List.foldl, scd2Step, hchanged]

/-- C3 witness: the six cases at concrete rows — a changed string value
(`Nord` to `Nord-Revise`), and a null staged value leaving the row alone. -/
theorem c3_change_detection_witness :
    apply_scd_type1 (fun _ => false) 9
        [{ bk := Val.s "59", colVal := some (Val.s "Nord"), date_modification := none }]
        [{ bk := Val.s "59", newVal := some (Val.s "Nord-Revise") }]
      = ([{ bk := Val.s "59", colVal := some (Val.s "Nord-Revise"),
            date_modification := some 9 }], 1, false)
    ∧ apply_scd_type1 (fun _ => false) 9
        [{ bk := Val.s "59", colVal := some (Val.s "Nord"), date_modification := none }]
        [{ bk := Val.s "59", newVal := none }]
      = ([{ bk := Val.s "59", colVal := some (Val.s "Nord"),
            date_modification := none }], 0, false)
    ∧ apply_scd_type3 (fun _ => false) 9
        [{ bk := Val.s "59", curVal := some (Val.s "Nord"), prevVal := none,
           date_changement := none, date_modification := none }]
        [{ bk := Val.s "59", newVal := some (Val.s "Nord-Revise") }]
      = ([{ bk := Val.s "59", curVal := some (Val.s "Nord-Revise"),
            prevVal := some (Val.s "Nord"), date_changement := some 9,
            date_modification := some 9 }], 1, false)
    ∧ apply_scd_type3 (fun _ => false) 9
        [{ bk := Val.s "59", curVal := some (Val.s "Nord"), prevVal := none,
           date_changement := none, date_modification := none }]
        [{ bk := Val.s "59", newVal := none }]
      = ([{ bk := Val.s "59", curVal := some (Val.s "Nord"), prevVal := none,
            date_changement := none, date_modification := none }], 0, false)
    ∧ ((apply_scd_type2 (fun _ => false) 9 ["departement_nom"]
        [{ geo_id := 1, bk := Val.s "59",
           attrs := [("departement_nom", some (Val.s "Nord"))], version := 1,
           est_actif := true, date_debut_validite := 0, date_fin_validite := none,
           date_creation := 0, date_modification := 0 }]
        [{ bk := Val.s "59",
           vals := [("departement_nom", some (Val.s "Nord-Revise"))] }]).2
        = (1, false)
      ∧ (apply_scd_type2 (fun _ => false) 9 ["departement_nom"]
        [{ geo_id := 1, bk := Val.s "59",
           attrs := [("departement_nom", some (Val.s "Nord"))], version := 1,
           est_actif := true, date_debut_validite := 0, date_fin_validite := none,
           date_creation := 0, date_modification := 0 }]
        [{ bk := Val.s "59",
           vals := [("departement_nom", some (Val.s "Nord-Revise"))] }]).1.length = 2)
    ∧ apply_scd_type2 (fun _ => false) 9 ["departement_nom"]
        [{ geo_id := 1, bk := Val.s "59",
           attrs := [("departement_nom", some (Val.s "Nord"))], version := 1,
           est_actif := true, date_debut_validite := 0, date_fin_validite := none,
           date_creation := 0, date_modification := 0 }]
        [{ bk := Val.s "59", vals := [("departement_nom", none)] }]
      = ([{ geo_id := 1, bk := Val.s "59",
            attrs := [("departement_nom", some (Val.s "Nord"))], version := 1,
            est_actif := true, date_debut_validite := 0, date_fin_validite := none,
            date_creation := 0, date_modification := 0 }], 0, false) :=
  ⟨c3_change_detection.1 (fun _ => false) 9 _ _ (Val.s "Nord-Revise") (Val.s "Nord")
     rfl rfl rfl rfl (by decide),
   c3_change_detection.2.1 (fun _ => false) 9 _ _ rfl (Or.inl rfl),
   c3_change_detection.2.2.1 (fun _ => false) 9 _ _ (Val.s "Nord-Revise") (Val.s "Nord")
     rfl rfl rfl rfl (by decide),
   c3_change_detection.2.2.2.1 (fun _ => false) 9 _ _ rfl (Or.inl rfl),
   c3_change_detection.2.2.2.2.1 (fun _ => false) 9 "departement_nom" _ _
     (Val.s "Nord-Revise") (Val.s "Nord") rfl rfl rfl (by decide) (by decide) (by decide),
   c3_change_detection.2.2.2.2.2 (fun _ => false) 9 "departement_nom" _ _
     rfl rfl (Or.inl (by decide))⟩

/-! ## C2 -/

/-- C2 counterexample: keys "A" and "B" both carry a genuine change; the
store raises while updating "A".  The invocation ends with the exception
escaped (`errored = true`), the change count still 0 and key "B"'s row
untouched — the remaining business key of the same invocation was NOT
processed, contrary to the claim. -/
theorem c2_isolation_counterexample :
    apply_scd_type1 (fun v => decide (v = Val.s "A")) 7
        [{ bk := Val.s "A", colVal := some (Val.s "x"), date_modification := none },
         { bk := Val.s "B", colVal := some (Val.s "y"), date_modification := none }]
        [{ bk := Val.s "A", newVal := some (Val.s "x2") },
         { bk := Val.s "B", newVal := some (Val.s "y2") }]
      = ([{ bk := Val.s "A", colVal := some (Val.s "x"), date_modification := none },
          { bk := Val.s "B", colVal := some (Val.s "y"), date_modification := none }],
         0, true) := by
  decide

/-- C2 (amended): in each policy, a persistence error on one business key
aborts that key's update AND the processing of every remaining key of the
same invocation (the exception escapes the call), while keys committed
earlier in the same invocation keep their committed state — they are not
rolled back.  Scenario: two distinct keys, both changed; the first
succeeds, the second's update raises. -/
theorem c2_isolation_amended :
    (∀ (f : Val → Bool) (now : Nat) (a b : Scd1Row) (na nb : Scd1New)
        (xa ya xb yb : Val),
      a.bk = na.bk → b.bk = nb.bk → a.bk ≠ b.bk →
      f na.bk = false → f nb.bk = true →
      na.newVal = some xa → a.colVal = some ya → xa.str ≠ ya.str →
      nb.newVal = some xb → b.colVal = some yb → xb.str ≠ yb.str →
      apply_scd_type1 f now [a, b] [na, nb]
        = ([{ a with
              colVal := some (Val.s xa.str), date_modification := some now }, b],
           1, true))
    ∧ (∀ (f : Val → Bool) (now : Nat) (a b : Scd3Row) (na nb : Scd1New)
        (xa ya xb yb : Val),
      a.bk = na.bk → b.bk = nb.bk → a.bk ≠ b.bk →
      f na.bk = false → f nb.bk = true →
      na.newVal = some xa → a.curVal = some ya → xa.str ≠ ya.str →
      nb.newVal = some xb → b.curVal = some yb → xb.str ≠ yb.str →
      apply_scd_type3 f now [a, b] [na, nb]
        = ([{ a with
              prevVal := a.curVal, curVal := some (Val.s xa.str),
              date_changement := some now, date_modification := some now }, b],
           1, true))
    ∧ (∀ (f : Val → Bool) (now : Nat) (col : String) (a b : Scd2Row)
        (na nb : Scd2New) (xa ya xb yb : Val),
      a.est_actif = true → b.est_actif = true →
      a.bk = na.bk → b.bk = nb.bk → a.bk ≠ b.bk →
      f na.bk = false → f nb.bk = true →
      getAttr na.vals col = some xa → getAttr a.attrs col = some ya → xa.str ≠ ya.str →
      getAttr nb.vals col = some xb → getAttr b.attrs col = some yb → xb.str ≠ yb.str →
      apply_scd_type2 f now [col] [a, b] [na, nb]
        = (closeRows now na.bk [a, b]
            ++ [{ geo_id := freshGeoId (closeRows now na.bk [a, b]), bk := a.bk,
                  attrs := applyTracked [col] na a.attrs, version := a.version + 1,
                  est_actif := true, date_debut_validite := now,
                  date_fin_validite := none, date_creation := now,
                  date_modification := now }],
           1, true)) := by
  refine ⟨?_, ?_, ?_⟩
  · intro f now a b na nb xa ya xb yb hab hbb hne hfa hfb hnxa haya hda hnxb hbyb hdb
    have hbna : ¬(b.bk = na.bk) := fun h => hne (hab.trans h.symm)
    have hanb : ¬(a.bk = nb.bk) := fun h => hne (h.trans hbb.symm)
    have hflt1 : [a, b].filter (fun c => c.bk = na.bk) = [a] := by
      simp [hab, hbna]
    have hflt2 : [a, b].filter (fun c => c.bk = nb.bk) = [b] := by
      simp [hbb, hanb]
    have hmerge : scd1Merged [na, nb] [a, b] = [(na, a), (nb, b)] := by
      simp [scd1Merged, hflt1, hflt2]
    unfold apply_scd_type1
    rw [if_neg (by simp)]
    rw [hmerge]
    simp only [List.foldl, scd1Step, hnxa, haya, hfa]
    simp only [if_pos hda, Bool.false_eq_true, if_false]
    have hupd : scd1Update now [a, b] na.bk xa
        = [{ a with
             colVal := some (Val.s xa.str), date_modification := some now }, b] := by
      simp [scd1Update, hab, hbna]
    rw [hupd]
    simp only [scd1Step, hnxb, hbyb, hfb]
    simp [if_pos hdb]
  · intro f now a b na nb xa ya xb yb hab hbb hne hfa hfb hnxa haya hda hnxb hbyb hdb
    have hbna : ¬(b.bk = na.bk) := fun h => hne (hab.trans h.symm)
    have hanb : ¬(a.bk = nb.bk) := fun h => hne (h.trans hbb.symm)
    have hflt1 : [a, b].filter (fun c => c.bk = na.bk) = [a] := by
      simp [hab, hbna]
    have hflt2 : [a, b].filter (fun c => c.bk = nb.bk) = [b] := by
      simp [hbb, hanb]
    have hmerge : scd3Merged [na, nb] [a, b] = [(na, a), (nb, b)] := by
      simp [scd3Merged, hflt1, hflt2]
    unfold apply_scd_type3
    rw [if_neg (by simp)]
    rw [hmerge]
    simp only [List.foldl, scd3Step, hnxa, haya, hfa]
    simp only [if_pos hda, Bool.false_eq_true, if_false]
    have hupd : scd3Update now [a, b] na.bk xa
        = [{ a with
             prevVal := a.curVal, curVal := some (Val.s xa.str),
             date_changement := some now, date_modification := some now }, b] := by
      simp [scd3Update, hab, hbna]
    rw [hupd]
    simp only [scd3Step, hnxb, hbyb, hfb]
    simp [if_pos hdb, haya]
  · intro f now col a b na nb xa ya xb yb hacta hactb hab hbb hne hfa hfb
      hnxa haya hda hnxb hbyb hdb
    have hbna : ¬(b.bk = na.bk) := fun h => hne (hab.trans h.symm)
    have hanb : ¬(a.bk = nb.bk) := fun h => hne (h.trans hbb.symm)
    have hcur : ([a, b].filter (fun r => r.est_actif)) = [a, b] := by
      simp [hacta, hactb]
    have hflt1 : [a, b].filter (fun c => c.bk = na.bk) = [a] := by
      simp [hab, hbna]
    have hflt2 : [a, b].filter (fun c => c.bk = nb.bk) = [b] := by
      simp [hbb, hanb]
    have hmerge : scd2Merged [na, nb] [a, b] = [(na, a), (nb, b)] := by
      simp [scd2Merged, hflt1, hflt2]
    have hchga : scd2Changed [col] na a = true := by
      simp only [scd2Changed, List.any_cons, List.any_nil, Bool.or_false]
      simp [changedCell, hnxa, haya, hda]
    have hchgb : scd2Changed [col] nb b = true := by
      simp only [scd2Changed, List.any_cons, List.any_nil, Bool.or_false]
      simp [changedCell, hnxb, hbyb, hdb]
    have hfilter : (closeRows now na.bk [a, b]).filter
        (fun r => r.bk = na.bk ∧ r.est_actif = false)
        = [{ a with
             date_fin_validite := some now, est_actif := false,
             date_modification := now }] := by
      simp [closeRows, closeRow, hab, hbna, hacta]
    unfold apply_scd_type2
    rw [hcur]
    rw [if_neg (by simp)]
    rw [hmerge]
    simp only [List.foldl]
    rw [show scd2Step f now [col] ([a, b], 0, false) (na, a)
        = (closeRows now na.bk [a, b]
            ++ [{ geo_id := freshGeoId (closeRows now na.bk [a, b]), bk := a.bk,
                  attrs := applyTracked [col] na a.attrs, version := a.version + 1,
                  est_actif := true, date_debut_validite := now,
                  date_fin_validite := none, date_creation := now,
                  date_modification := now }], 1, false) from by
      simp only [scd2Step, hchga, hfa]
      simp only [Bool.false_eq_true, if_false, if_true, hfilter]
      simp [maxVersionRow]]
    simp only [scd2Step, hchgb, hfb]
    simp

/-- C2 (amended) witness: two concrete changed keys "A" then "B" with the
store failing on "B": key "A"'s new value is committed and kept, key "B"
is left untouched and the error escapes. -/
theorem c2_isolation_amended_witness :
    apply_scd_type1 (fun v => decide (v = Val.s "B")) 7
        [{ bk := Val.s "A", colVal := some (Val.s "x"), date_modification := none },
         { bk := Val.s "B", colVal := some (Val.s "y"), date_modification := none }]
        [{ bk := Val.s "A", newVal := some (Val.s "x2") },
         { bk := Val.s "B", newVal := some (Val.s "y2") }]
      = ([{ bk := Val.s "A", colVal := some (Val.s "x2"), date_modification := some 7 },
          { bk := Val.s "B", colVal := some (Val.s "y"), date_modification := none }],
         1, true) := by
  have h := c2_isolation_amended.1 (fun v => decide (v = Val.s "B")) 7
    { bk := Val.s "A", colVal := some (Val.s "x"), date_modification := none }
    { bk := Val.s "B", colVal := some (Val.s "y"), date_modification := none }
    { bk := Val.s "A", newVal := some (Val.s "x2") }
    { bk := Val.s "B", newVal := some (Val.s "y2") }
    (Val.s "x2") (Val.s "x") (Val.s "y2") (Val.s "y")
    rfl rfl (by decide) (by decide) (by decide) rfl rfl (by decide) rfl rfl (by decide)
  exact h

/-! ## C6 -/

/-- When the staged employment dataframe has rows but no year alias (or no
department alias) column, `load_fait_emploi` logs and returns 0 after its
five read round-trips — no exception is raised, nothing is inserted. -/
theorem load_fait_emploi_missing_col (st : Store) (stg : EmploiStg)
    (hstg : st.stgEmploi = some stg) (hrows : stg.rows ≠ [])
    (halias : yearAliasPresent stg.flags = false
      ∨ deptAliasPresent stg.flags = false) :
    ∃ st', load_fait_emploi st = .ok (st', 0)
      ∧ st'.faitEmploi = st.faitEmploi ∧ st'.stgEmploi = st.stgEmploi := by
  refine ⟨bump (bump (bump (bump (bump st)))), ?_, by simp, by simp⟩
  by_cases hy : yearAliasPresent stg.flags = false
  · simp only [load_fait_emploi, hstg]
    rw [if_neg hrows, if_pos hy]
  · rcases halias with hy2 | hd
    · exact absurd hy2 hy
    · simp only [load_fait_emploi, hstg]
      rw [if_neg hrows, if_neg hy, if_pos hd]

/-- Same fact for `load_fait_menages`, which reaches the alias checks
after four read round-trips. -/
theorem load_fait_menages_missing_col (st : Store) (stg : MenageStg)
    (hstg : st.stgMenage = some stg) (hrows : stg.rows ≠ [])
    (halias : yearAliasPresent stg.flags = false
      ∨ deptAliasPresent stg.flags = false) :
    ∃ st', load_fait_menages st = .ok (st', 0)
      ∧ st'.faitMenages = st.faitMenages ∧ st'.stgMenage = st.stgMenage := by
  refine ⟨bump (bump (bump (bump st))), ?_, by simp, by simp⟩
  by_cases hy : yearAliasPresent stg.flags = false
  · simp only [load_fait_menages, hstg]
    rw [if_neg hrows, if_pos hy]
  · rcases halias with hy2 | hd
    · exact absurd hy2 hy
    · simp only [load_fait_menages, hstg]
      rw [if_neg hrows, if_neg hy, if_pos hd]

/-- C6 counterexample: `stg_emploi_chomage` exists and holds one row, but
no candidate year column (`TIME_PERIOD`/`YEAR`/`ANNEE`) is present.  The
load completes normally with result 0 — no exception — and the
orchestrator records `SKIP`, not `ERREUR`: the table's load was NOT
aborted with an error. -/
theorem c6_missing_column_counterexample :
    load_fait_emploi
      { stgPopulation := none,
        stgEmploi := some
          { flags := { hasTimePeriod := false, hasYear := false, hasAnnee := false,
                       hasDepartement := true, hasDepartementCode := false,
                       hasDeptCode := false },
            rows := [{ yearVal := 2021, deptVal := "59", empsta := "1T2", obs := 10 }] },
        stgMenage := none, dimTemps := [((2021 : Int), 1)], dimGeo := [("59", 2)],
        dimDemoMin := some 1, faitPopulation := [], faitEmploi := [],
        faitMenages := [], calls := 0 }
      = .ok
      ({ stgPopulation := none,
         stgEmploi := some
           { flags := { hasTimePeriod := false, hasYear := false, hasAnnee := false,
                        hasDepartement := true, hasDepartementCode := false,
                        hasDeptCode := false },
             rows := [{ yearVal := 2021, deptVal := "59", empsta := "1T2", obs := 10 }] },
         stgMenage := none, dimTemps := [((2021 : Int), 1)], dimGeo := [("59", 2)],
         dimDemoMin := some 1, faitPopulation := [], faitEmploi := [],
         faitMenages := [], calls := 5 }, 0)
    ∧ (mainLoop false [("dwh.fait_emploi", ["stg_emploi_chomage"], load_fait_emploi)]
      { stgPopulation := none,
        stgEmploi := some
          { flags := { hasTimePeriod := false, hasYear := false, hasAnnee := false,
                       hasDepartement := true, hasDepartementCode := false,
                       hasDeptCode := false },
            rows := [{ yearVal := 2021, deptVal := "59", empsta := "1T2", obs := 10 }] },
        stgMenage := none, dimTemps := [((2021 : Int), 1)], dimGeo := [("59", 2)],
        dimDemoMin := some 1, faitPopulation := [], faitEmploi := [],
        faitMenages := [], calls := 0 }).1
      = [("dwh.fait_emploi", { statut := "SKIP", nb_lignes := 0, erreur := none })] := by
  constructor
  · rfl
  · rfl

/-- C6 (amended): a staging table that exists with rows but without any
candidate year or department column makes the loader log an error and
return 0 without raising; nothing is inserted and the orchestrator records
the table as `SKIP` (zero rows), not as an error. -/
theorem c6_missing_column_amended :
    (∀ (st : Store) (stg : EmploiStg),
      st.stgEmploi = some stg → stg.rows ≠ [] →
      yearAliasPresent stg.flags = false ∨ deptAliasPresent stg.flags = false →
      ∃ st', load_fait_emploi st = .ok (st', 0)
        ∧ st'.faitEmploi = st.faitEmploi ∧ st'.stgEmploi = st.stgEmploi)
    ∧ (∀ (st : Store) (stg : MenageStg),
      st.stgMenage = some stg → stg.rows ≠ [] →
      yearAliasPresent stg.flags = false ∨ deptAliasPresent stg.flags = false →
      ∃ st', load_fait_menages st = .ok (st', 0)
        ∧ st'.faitMenages = st.faitMenages ∧ st'.stgMenage = st.stgMenage)
    ∧ (∀ (st : Store) (stg : EmploiStg),
      st.stgEmploi = some stg → stg.rows ≠ [] →
      yearAliasPresent stg.flags = false ∨ deptAliasPresent stg.flags = false →
      (mainLoop false [("dwh.fait_emploi", ["stg_emploi_chomage"], load_fait_emploi)]
        st).1
        = [("dwh.fait_emploi", { statut := "SKIP", nb_lignes := 0, erreur := none })]) := by
  refine ⟨load_fait_emploi_missing_col, load_fait_menages_missing_col, ?_⟩
  intro st stg hstg hrows halias
  obtain ⟨st', hload, -, -⟩ :=
    load_fait_emploi_missing_col (bump st) stg (by simpa [bump] using hstg) hrows halias
  have hsome : st.stgEmploi.isSome = true := by rw [hstg]; rfl
  simp [mainLoop, mainStep, checkMissing, staging_exists, hsome, hload]

/-- C6 (amended) witness: the concrete store of the counterexample run
through the amended statement. -/
theorem c6_missing_column_amended_witness :
    load_fait_emploi
      { stgPopulation := none,
        stgEmploi := some
          { flags := { hasTimePeriod := false, hasYear := false, hasAnnee := false,
                       hasDepartement := true, hasDepartementCode := false,
                       hasDeptCode := false },
            rows := [{ yearVal := 2021, deptVal := "59", empsta := "1T2", obs := 10 }] },
        stgMenage := none, dimTemps := [((2021 : Int), 1)], dimGeo := [("59", 2)],
        dimDemoMin := some 1, faitPopulation := [], faitEmploi := [],
        faitMenages := [], calls := 0 }
      = .ok
      ({ stgPopulation := none,
         stgEmploi := some
           { flags := { hasTimePeriod := false, hasYear := false, hasAnnee := false,
                        hasDepartement := true, hasDepartementCode := false,
                        hasDeptCode := false },
             rows := [{ yearVal := 2021, deptVal := "59", empsta := "1T2", obs := 10 }] },
         stgMenage := none, dimTemps := [((2021 : Int), 1)], dimGeo := [("59", 2)],
         dimDemoMin := some 1, faitPopulation := [], faitEmploi := [],
         faitMenages := [], calls := 5 }, 0)
    ∧ ∃ st', load_fait_emploi
      { stgPopulation := none,
        stgEmploi := some
          { flags := { hasTimePeriod := false, hasYear := false, hasAnnee := false,
                       hasDepartement := true, hasDepartementCode := false,
                       hasDeptCode := false },
            rows := [{ yearVal := 2021, deptVal := "59", empsta := "1T2", obs := 10 }] },
        stgMenage := none, dimTemps := [((2021 : Int), 1)], dimGeo := [("59", 2)],
        dimDemoMin := some 1, faitPopulation := [], faitEmploi := [],
        faitMenages := [], calls := 0 }
      = .ok (st', 0) ∧ st'.faitEmploi = [] :=
  ⟨by rfl,
   (c6_missing_column_amended.1
      { stgPopulation := none,
        stgEmploi := some
          { flags := { hasTimePeriod := false, hasYear := false, hasAnnee := false,
                       hasDepartement := true, hasDepartementCode := false,
                       hasDeptCode := false },
            rows := [{ yearVal := 2021, deptVal := "59", empsta := "1T2", obs := 10 }] },
        stgMenage := none, dimTemps := [((2021 : Int), 1)], dimGeo := [("59", 2)],
        dimDemoMin := some 1, faitPopulation := [], faitEmploi := [],
        faitMenages := [], calls := 0 }
      { flags := { hasTimePeriod := false, hasYear := false, hasAnnee := false,
                   hasDepartement := true, hasDepartementCode := false,
                   hasDeptCode := false },
        rows := [{ yearVal := 2021, deptVal := "59", empsta := "1T2", obs := 10 }] }
      rfl (by decide) (Or.inl rfl)).elim
    (fun st' h => ⟨st', h.1, h.2.1⟩)⟩

/-! ## C4 -/

/-- `load_fait_population` against a non-empty fact table always takes a
zero-row exit: every control path either returns 0 before reaching the
insert, or hits the `COUNT(*) > 0` check and skips.  The fact table and
the staging table are left as they were. -/
theorem load_fait_population_nonempty (st : Store)
    (h : st.faitPopulation ≠ []) :
    ∃ st', load_fait_population st = .ok (st', 0)
      ∧ st'.faitPopulation = st.faitPopulation
      ∧ st'.stgPopulation = st.stgPopulation := by
  cases hstg : st.stgPopulation with
  | none =>
    exact ⟨bump st, by simp only [load_fait_population, hstg], by simp, by simp [hstg]⟩
  | some dfStg =>
    by_cases hdf : dfStg = []
    · refine ⟨bump (bump st), ?_, by simp, by simp [hstg]⟩
      simp only [load_fait_population, hstg]
      rw [if_pos hdf]
    · by_cases hins : popInserts st.dimTemps st.dimGeo (pyOrNat st.dimDemoMin 1) dfStg = []
      · refine ⟨bump (bump (bump (bump (bump st)))), ?_, by simp, by simp [hstg]⟩
        simp only [load_fait_population, hstg]
        rw [if_neg hdf, if_pos hins]
      · have hlen : st.faitPopulation.length > 0 := List.length_pos.mpr h
        refine ⟨bump (bump (bump (bump (bump (bump st))))), ?_, by simp, by simp [hstg]⟩
        simp only [load_fait_population, hstg]
        rw [if_neg hdf, if_neg hins, if_pos hlen]

/-- A `load_fait_population` call that returns a positive count went
through the insert branch: the resulting fact table is non-empty and the
staging table is untouched. -/
theorem load_fait_population_pos (st st1 : Store) (n : Nat)
    (h : load_fait_population st = .ok (st1, n)) (hn : 0 < n) :
    st1.faitPopulation ≠ [] ∧ st1.stgPopulation = st.stgPopulation
      ∧ st1.stgPopulation.isSome = true := by
  cases hstg : st.stgPopulation with
  | none =>
    simp only [load_fait_population, hstg, Except.ok.injEq, Prod.mk.injEq] at h
    omega
  | some dfStg =>
    by_cases hdf : dfStg = []
    · simp only [load_fait_population, hstg, if_pos hdf, Except.ok.injEq,
        Prod.mk.injEq] at h
      omega
    · by_cases hins : popInserts st.dimTemps st.dimGeo (pyOrNat st.dimDemoMin 1) dfStg = []
      · simp only [load_fait_population, hstg, if_neg hdf, if_pos hins,
          Except.ok.injEq, Prod.mk.injEq] at h
        omega
      · by_cases hlen : st.faitPopulation.length > 0
        · simp only [load_fait_population, hstg, if_neg hdf, if_neg hins,
            if_pos hlen, Except.ok.injEq, Prod.mk.injEq] at h
          omega
        · simp only [load_fait_population, hstg, if_neg hdf, if_neg hins,
            if_neg hlen, Except.ok.injEq, Prod.mk.injEq] at h
          obtain ⟨hst1, -⟩ := h
          subst hst1
          refine ⟨?_, by simp [hstg], by simp [hstg]⟩
          simp only [ne_eq, List.append_eq_nil, not_and]
          intro _
          exact hins

/-- C4: after a first `load_fait_population` call that inserted at least
one row, a second call inserts nothing, returns 0 and leaves the fact
table unchanged, and the orchestrator records the table as `SKIP`; and in
general the loader never inserts into a non-empty `fait_population`. -/
theorem c4_fact_load_idempotent :
    (∀ (st st1 : Store) (n : Nat),
      load_fait_population st = .ok (st1, n) → 0 < n →
      (∃ st2, load_fait_population st1 = .ok (st2, 0)
        ∧ st2.faitPopulation = st1.faitPopulation)
      ∧ (mainLoop false
          [("dwh.fait_population", ["stg_population"], load_fait_population)] st1).1
        = [("dwh.fait_population", { statut := "SKIP", nb_lignes := 0, erreur := none })])
    ∧ (∀ st : Store, st.faitPopulation ≠ [] →
      ∃ st2, load_fait_population st = .ok (st2, 0)
        ∧ st2.faitPopulation = st.faitPopulation) := by
  constructor
  · intro st st1 n h hn
    obtain ⟨hne, -, hsome⟩ := load_fait_population_pos st st1 n h hn
    constructor
    · obtain ⟨st2, h1, h2, -⟩ := load_fait_population_nonempty st1 hne
      exact ⟨st2, h1, h2⟩
    · obtain ⟨st2, hok, -, -⟩ := load_fait_population_nonempty (bump st1) hne
      simp [mainLoop, mainStep, checkMissing, staging_exists, hsome, hok]
  · intro st h
    obtain ⟨st2, h1, h2, -⟩ := load_fait_population_nonempty st h
    exact ⟨st2, h1, h2⟩

/-- C4 witness: a concrete first load inserts one row; the second
invocation returns 0 with the fact table unchanged and the orchestrator
reports `SKIP`. -/
theorem c4_fact_load_idempotent_witness :
    (∃ st2, load_fait_population
      { stgPopulation := some [{ year := 2019, geo_code := "59", obs_value := some 100 }],
        stgEmploi := none, stgMenage := none,
        dimTemps := [((2019 : Int), 1)], dimGeo := [("59", 2)], dimDemoMin := some 3,
        faitPopulation := [{ temps_id := some 1, geo_id := some 2, demo_id := 3,
                             population := some 100, source_fichier := "stg_population" }],
        faitEmploi := [], faitMenages := [], calls := 7 }
      = .ok (st2, 0)
      ∧ st2.faitPopulation
        = [{ temps_id := some 1, geo_id := some 2, demo_id := 3,
             population := some 100, source_fichier := "stg_population" }])
    ∧ (mainLoop false
        [("dwh.fait_population", ["stg_population"], load_fait_population)]
        { stgPopulation := some [{ year := 2019, geo_code := "59", obs_value := some 100 }],
          stgEmploi := none, stgMenage := none,
          dimTemps := [((2019 : Int), 1)], dimGeo := [("59", 2)], dimDemoMin := some 3,
          faitPopulation := [{ temps_id := some 1, geo_id := some 2, demo_id := 3,
                               population := some 100, source_fichier := "stg_population" }],
          faitEmploi := [], faitMenages := [], calls := 7 }).1
      = [("dwh.fait_population", { statut := "SKIP", nb_lignes := 0, erreur := none })] :=
  c4_fact_load_idempotent.1
    { stgPopulation := some [{ year := 2019, geo_code := "59", obs_value := some 100 }],
      stgEmploi := none, stgMenage := none,
      dimTemps := [((2019 : Int), 1)], dimGeo := [("59", 2)], dimDemoMin := some 3,
      faitPopulation := [], faitEmploi := [], faitMenages := [], calls := 0 }
    { stgPopulation := some [{ year := 2019, geo_code := "59", obs_value := some 100 }],
      stgEmploi := none, stgMenage := none,
      dimTemps := [((2019 : Int), 1)], dimGeo := [("59", 2)], dimDemoMin := some 3,
      faitPopulation := [{ temps_id := some 1, geo_id := some 2, demo_id := 3,
                           population := some 100, source_fichier := "stg_population" }],
      faitEmploi := [], faitMenages := [], calls := 7 }
    1 (by rfl) (by decide)

/-! ## C8 -/

/-- A `filterMap` keeps exactly as many elements as the boolean test that
characterises when the partial map succeeds. -/
theorem length_filterMap_eq_length_filter {α β : Type} (f : α → Option β)
    (p : α → Bool) (h : ∀ a, (f a).isSome = p a) :
    ∀ l : List α, (l.filterMap f).length = (l.filter p).length := by
  intro l
  induction l with
  | nil => rfl
  | cons a t ih =>
    cases hfa : f a with
    | none =>
      have hpa : p a = false := by rw [← h a, hfa]; rfl
      simp [List.filterMap_cons, List.filter_cons, hfa, hpa, ih]
    | some b =>
      have hpa : p a = true := by rw [← h a, hfa]; rfl
      simp [List.filterMap_cons, List.filter_cons, hfa, hpa, ih]

/-- A row of `df_insert` in `load_fait_population` is produced exactly when
both dimension lookups succeed. -/
theorem popInsertRow_isSome (tempsMap : List (Int × Nat))
    (geoMap : List (String × Nat)) (demoId : Nat) (r : PopStgRow) :
    (popInsertRow tempsMap geoMap demoId r).isSome
      = ((dimLookup tempsMap r.year).isSome
          && (dimLookup geoMap (zfill2 r.geo_code)).isSome) := by
  unfold popInsertRow
  cases dimLookup tempsMap r.year <;> cases dimLookup geoMap (zfill2 r.geo_code) <;> rfl

/-- Every produced `df_insert` row carries non-null dimension keys. -/
theorem popInsertRow_keys (tempsMap : List (Int × Nat))
    (geoMap : List (String × Nat)) (demoId : Nat) (r : PopStgRow)
    (row : PopFactRow) (h : popInsertRow tempsMap geoMap demoId r = some row) :
    row.temps_id ≠ none ∧ row.geo_id ≠ none := by
  unfold popInsertRow at h
  cases ht : dimLookup tempsMap r.year with
  | none => rw [ht] at h; cases h
  | some t =>
    cases hg : dimLookup geoMap (zfill2 r.geo_code) with
    | none => rw [ht, hg] at h; cases h
    | some g =>
      rw [ht, hg] at h
      cases h
      exact ⟨by simp, by simp⟩

/-- A successful dimension lookup returns one of the mapping's values. -/
theorem dimLookup_mem {α β : Type} [DecidableEq α] (m : List (α × β)) (k : α)
    (v : β) (h : dimLookup m k = some v) : ∃ p ∈ m, p.2 = v := by
  unfold dimLookup at h
  cases hf : m.find? (fun p => p.1 = k) with
  | none => rw [hf] at h; cases h
  | some p =>
    rw [hf] at h
    cases h
    exact ⟨p, List.mem_of_find?_eq_some hf, rfl⟩

/-- Under positive surrogate keys, a group record of `load_fait_emploi` is
produced exactly when both the year and the department resolve. -/
theorem emploiGroupRecord_isSome (tempsMap : List (Int × Nat))
    (geoMap : List (String × Nat)) (demoId : Nat) (rows : List EmploiStgRow)
    (k : Int × String)
    (hpos1 : ∀ p ∈ tempsMap, 0 < p.2) (hpos2 : ∀ p ∈ geoMap, 0 < p.2) :
    (emploiGroupRecord tempsMap geoMap demoId rows k).isSome
      = ((dimLookup tempsMap k.1).isSome && (dimLookup geoMap k.2).isSome) := by
  cases ht : dimLookup tempsMap k.1 with
  | none => simp [emploiGroupRecord, ht]
  | some t =>
    cases hg : dimLookup geoMap k.2 with
    | none => simp [emploiGroupRecord, ht, hg]
    | some g =>
      obtain ⟨pt, hpt, hvt⟩ := dimLookup_mem tempsMap k.1 t ht
      obtain ⟨pg, hpg, hvg⟩ := dimLookup_mem geoMap k.2 g hg
      have htpos : 0 < t := hvt ▸ hpos1 pt hpt
      have hgpos : 0 < g := hvg ▸ hpos2 pg hpg
      have hcond : (t = 0 || g = 0) = false := by
        simp [Nat.pos_iff_ne_zero.mp htpos, Nat.pos_iff_ne_zero.mp hgpos]
      simp [emploiGroupRecord, ht, hg, hcond]

/-- Every produced `fait_emploi` record carries positive surrogate keys. -/
theorem emploiGroupRecord_keys (tempsMap : List (Int × Nat))
    (geoMap : List (String × Nat)) (demoId : Nat) (rows : List EmploiStgRow)
    (k : Int × String) (rec : EmploiFactRow)
    (h : emploiGroupRecord tempsMap geoMap demoId rows k = some rec) :
    0 < rec.temps_id ∧ 0 < rec.geo_id := by
  cases ht : dimLookup tempsMap k.1 with
  | none => simp [emploiGroupRecord, ht] at h
  | some t =>
    cases hg : dimLookup geoMap k.2 with
    | none => simp [emploiGroupRecord, ht, hg] at h
    | some g =>
      by_cases hz : (t = 0 || g = 0) = true
      · simp [emploiGroupRecord, ht, hg, hz] at h
      · simp only [emploiGroupRecord, ht, hg, hz, if_false, Bool.false_eq_true,
          Option.some.injEq] at h
        subst h
        simp only [Bool.or_eq_true, decide_eq_true_eq, not_or] at hz
        exact ⟨Nat.pos_of_ne_zero hz.1, Nat.pos_of_ne_zero hz.2⟩

/-- C8: staged rows (for `fait_population`) and staged groups (for
`fait_emploi`) whose year or department does not resolve to a dimension
key are dropped: against an empty fact table the inserted count equals
exactly the number of resolvable rows/groups, and no inserted row carries
a null (for `fait_emploi`: zero) `temps_id` or `geo_id`.  Dimension
surrogate keys are assumed positive, as the store's identity columns
provide. -/
theorem c8_dropped_row_accounting :
    (∀ (st : Store) (dfStg : List PopStgRow),
      st.stgPopulation = some dfStg → dfStg ≠ [] → st.faitPopulation = [] →
      ∃ st', load_fait_population st
          = .ok (st', (dfStg.filter (fun r =>
              (dimLookup st.dimTemps r.year).isSome
              && (dimLookup st.dimGeo (zfill2 r.geo_code)).isSome)).length)
        ∧ (∀ row ∈ st'.faitPopulation, row.temps_id ≠ none ∧ row.geo_id ≠ none))
    ∧ (∀ (st : Store) (stg : EmploiStg),
      st.stgEmploi = some stg → stg.rows ≠ [] →
      yearAliasPresent stg.flags = true → deptAliasPresent stg.flags = true →
      st.faitEmploi = [] →
      (∀ p ∈ st.dimTemps, 0 < p.2) → (∀ p ∈ st.dimGeo, 0 < p.2) →
      ∃ st', load_fait_emploi st
          = .ok (st', ((groupKeys (stg.rows.map emploiKey)).filter (fun k =>
              (dimLookup st.dimTemps k.1).isSome
              && (dimLookup st.dimGeo k.2).isSome)).length)
        ∧ (∀ rec ∈ st'.faitEmploi, 0 < rec.temps_id ∧ 0 < rec.geo_id)) := by
  constructor
  · intro st dfStg hstg hdf hfait
    have hlen : (popInserts st.dimTemps st.dimGeo (pyOrNat st.dimDemoMin 1) dfStg).length
        = (dfStg.filter (fun r =>
            (dimLookup st.dimTemps r.year).isSome
            && (dimLookup st.dimGeo (zfill2 r.geo_code)).isSome)).length :=
      length_filterMap_eq_length_filter _ _
        (popInsertRow_isSome st.dimTemps st.dimGeo (pyOrNat st.dimDemoMin 1)) dfStg
    by_cases hins : popInserts st.dimTemps st.dimGeo (pyOrNat st.dimDemoMin 1) dfStg = []
    · refine ⟨bump (bump (bump (bump (bump st)))), ?_, ?_⟩
      · rw [← hlen, hins]
        simp only [load_fait_population, hstg]
        rw [if_neg hdf, if_pos hins]
        rfl
      · intro row hrow
        simp only [bump_faitPopulation, hfait] at hrow
        cases hrow
    · have hlenpos : ¬ st.faitPopulation.length > 0 := by simp [hfait]
      refine ⟨{ bump (bump (bump (bump (bump (bump (bump st)))))) with faitPopulation := st.faitPopulation ++ popInserts st.dimTemps st.dimGeo (pyOrNat st.dimDemoMin 1) dfStg }, ?_, ?_⟩
      · rw [← hlen]
        simp only [load_fait_population, hstg]
        rw [if_neg hdf, if_neg hins, if_neg hlenpos]
      · intro row hrow
        simp only [hfait, List.nil_append] at hrow
        obtain ⟨r, -, hr⟩ := List.mem_filterMap.mp hrow
        exact popInsertRow_keys _ _ _ _ _ hr
  · intro st stg hstg hrows hyear hdept hfait hpos1 hpos2
    have hlen : (emploiRecords st.dimTemps st.dimGeo (pyOrNat st.dimDemoMin 1)
          stg.rows).length
        = ((groupKeys (stg.rows.map emploiKey)).filter (fun k =>
            (dimLookup st.dimTemps k.1).isSome
            && (dimLookup st.dimGeo k.2).isSome)).length :=
      length_filterMap_eq_length_filter _ _
        (fun k => emploiGroupRecord_isSome st.dimTemps st.dimGeo
          (pyOrNat st.dimDemoMin 1) stg.rows k hpos1 hpos2) _
    have hyneg : ¬ yearAliasPresent stg.flags = false := by simp [hyear]
    have hdneg : ¬ deptAliasPresent stg.flags = false := by simp [hdept]
    by_cases hrec : emploiRecords st.dimTemps st.dimGeo (pyOrNat st.dimDemoMin 1)
        stg.rows = []
    · refine ⟨bump (bump (bump (bump (bump st)))), ?_, ?_⟩
      · rw [← hlen, hrec]
        simp only [load_fait_emploi, hstg]
        rw [if_neg hrows, if_neg hyneg, if_neg hdneg, if_pos hrec]
        rfl
      · intro rec hrecmem
        simp only [bump_faitEmploi, hfait] at hrecmem
        cases hrecmem
    · have hlenpos : ¬ st.faitEmploi.length > 0 := by simp [hfait]
      refine ⟨{ bump (bump (bump (bump (bump (bump (bump (bump st))))))) with faitEmploi := st.faitEmploi ++ emploiRecords st.dimTemps st.dimGeo (pyOrNat st.dimDemoMin 1) stg.rows }, ?_, ?_⟩
      · rw [← hlen]
        simp only [load_fait_emploi, hstg]
        rw [if_neg hrows, if_neg hyneg, if_neg hdneg, if_neg hrec, if_neg hlenpos]
      · intro rec hrecmem
        simp only [hfait, List.nil_append] at hrecmem
        obtain ⟨k, -, hk⟩ := List.mem_filterMap.mp hrecmem
        exact emploiGroupRecord_keys _ _ _ _ _ _ hk

/-- C8 witness: two staged population rows (2019 resolvable, 2020 not) and
two staged employment groups (department 59 resolvable, 02 not): exactly
one row/group is inserted in each loader and the inserted keys are
non-null/positive. -/
theorem c8_dropped_row_accounting_witness :
    (∃ st', load_fait_population
      { stgPopulation := some
          [{ year := 2019, geo_code := "59", obs_value := some 5 },
           { year := 2020, geo_code := "59", obs_value := some 6 }],
        stgEmploi := none, stgMenage := none,
        dimTemps := [((2019 : Int), 1)], dimGeo := [("59", 2)], dimDemoMin := some 1,
        faitPopulation := [], faitEmploi := [], faitMenages := [], calls := 0 }
        = .ok (st', (([{ year := 2019, geo_code := "59", obs_value := some 5 },
             { year := 2020, geo_code := "59", obs_value := some 6 }] : List PopStgRow).filter
            (fun r => (dimLookup [((2019 : Int), 1)] r.year).isSome
              && (dimLookup [("59", 2)] (zfill2 r.geo_code)).isSome)).length)
      ∧ (∀ row ∈ st'.faitPopulation, row.temps_id ≠ none ∧ row.geo_id ≠ none))
    ∧ (∃ st', load_fait_emploi
      { stgPopulation := none,
        stgEmploi := some
          { flags := { hasTimePeriod := true, hasYear := false, hasAnnee := false,
                       hasDepartement := true, hasDepartementCode := false,
                       hasDeptCode := false },
            rows := [{ yearVal := 2021, deptVal := "59", empsta := "1T2", obs := 10 },
                     { yearVal := 2021, deptVal := "02", empsta := "1T2", obs := 3 }] },
        stgMenage := none,
        dimTemps := [((2021 : Int), 1)], dimGeo := [("59", 2)], dimDemoMin := some 1,
        faitPopulation := [], faitEmploi := [], faitMenages := [], calls := 0 }
        = .ok (st', ((groupKeys
            (([{ yearVal := 2021, deptVal := "59", empsta := "1T2", obs := 10 },
               { yearVal := 2021, deptVal := "02", empsta := "1T2", obs := 3 }] :
                List EmploiStgRow).map emploiKey)).filter
            (fun k => (dimLookup [((2021 : Int), 1)] k.1).isSome
              && (dimLookup [("59", 2)] k.2).isSome)).length)
      ∧ (∀ rec ∈ st'.faitEmploi, 0 < rec.temps_id ∧ 0 < rec.geo_id)) :=
  ⟨c8_dropped_row_accounting.1
    { stgPopulation := some
        [{ year := 2019, geo_code := "59", obs_value := some 5 },
         { year := 2020, geo_code := "59", obs_value := some 6 }],
      stgEmploi := none, stgMenage := none,
      dimTemps := [((2019 : Int), 1)], dimGeo := [("59", 2)], dimDemoMin := some 1,
      faitPopulation := [], faitEmploi := [], faitMenages := [], calls := 0 }
    [{ year := 2019, geo_code := "59", obs_value := some 5 },
     { year := 2020, geo_code := "59", obs_value := some 6 }]
    rfl (by decide) rfl,
   c8_dropped_row_accounting.2
    { stgPopulation := none,
      stgEmploi := some
        { flags := { hasTimePeriod := true, hasYear := false, hasAnnee := false,
                     hasDepartement := true, hasDepartementCode := false,
                     hasDeptCode := false },
          rows := [{ yearVal := 2021, deptVal := "59", empsta := "1T2", obs := 10 },
                   { yearVal := 2021, deptVal := "02", empsta := "1T2", obs := 3 }] },
      stgMenage := none,
      dimTemps := [((2021 : Int), 1)], dimGeo := [("59", 2)], dimDemoMin := some 1,
      faitPopulation := [], faitEmploi := [], faitMenages := [], calls := 0 }
    { flags := { hasTimePeriod := true, hasYear := false, hasAnnee := false,
                 hasDepartement := true, hasDepartementCode := false,
                 hasDeptCode := false },
      rows := [{ yearVal := 2021, deptVal := "59", empsta := "1T2", obs := 10 },
               { yearVal := 2021, deptVal := "02", empsta := "1T2", obs := 3 }] }
    rfl (by decide) rfl rfl rfl (by decide) (by decide)⟩

/-! ## C1 helper lemmas -/

/-- The `ORDER BY version DESC` fold returns the strictly dominating row. -/
theorem foldl_maxVersion_eq (ca : Scd2Row) :
    ∀ (l : List Scd2Row) (b : Scd2Row),
      (b = ca ∨ b.version < ca.version) →
      (ca ∈ l ∨ b = ca) →
      (∀ x ∈ l, x = ca ∨ x.version < ca.version) →
      l.foldl (fun b x => if b.version < x.version then x else b) b = ca := by
  intro l
  induction l with
  | nil =>
    intro b _ hca _
    rcases hca with h | h
    · cases h
    · exact h
  | cons x xs ih =>
    intro b hb hca hall
    have hx := hall x (List.mem_cons_self x xs)
    show xs.foldl _ (if b.version < x.version then x else b) = ca
    by_cases hbx : b.version < x.version
    · rw [if_pos hbx]
      refine ih x hx ?_ (fun y hy => hall y (List.mem_cons_of_mem x hy))
      rcases hx with hxca | hxlt
      · exact Or.inr hxca
      · rcases hca with hcal | hbca
        · rcases List.mem_cons.mp hcal with h | h
          · exact Or.inr h.symm
          · exact Or.inl h
        · exfalso
          rw [hbca] at hbx
          exact absurd (hbx.trans hxlt) (lt_irrefl _)
    · rw [if_neg hbx]
      refine ih b hb ?_ (fun y hy => hall y (List.mem_cons_of_mem x hy))
      rcases hca with hcal | hbca
      · rcases List.mem_cons.mp hcal with h | h
        · rcases hb with hbca | hblt
          · exact Or.inr hbca
          · exfalso
            rw [h] at hblt
            exact hbx hblt
        · exact Or.inl h
      · exact Or.inr hbca

/-- `maxVersionRow` finds the row that strictly dominates every other row
of the selection. -/
theorem maxVersionRow_eq (l : List Scd2Row) (ca : Scd2Row)
    (hmem : ca ∈ l) (hall : ∀ x ∈ l, x = ca ∨ x.version < ca.version) :
    maxVersionRow l = some ca := by
  cases l with
  | nil => cases hmem
  | cons r rs =>
    have hr := hall r (List.mem_cons_self r rs)
    have hca : ca ∈ rs ∨ r = ca := by
      rcases List.mem_cons.mp hmem with h | h
      · exact Or.inr h.symm
      · exact Or.inl h
    have := foldl_maxVersion_eq ca rs r hr hca
      (fun y hy => hall y (List.mem_cons_of_mem r hy))
    simp [maxVersionRow, this]

/-- The max-id fold is bounded below by its accumulator. -/
theorem foldl_maxGeo_ge_acc :
    ∀ (l : List Scd2Row) (acc : Nat),
      acc ≤ l.foldl (fun m r => max m r.geo_id) acc := by
  intro l
  induction l with
  | nil => intro acc; exact Nat.le_refl acc
  | cons x xs ih =>
    intro acc
    exact le_trans (Nat.le_max_left acc x.geo_id) (ih (max acc x.geo_id))

/-- Every member's key is bounded by the max-id fold. -/
theorem foldl_maxGeo_ge_mem :
    ∀ (l : List Scd2Row) (acc : Nat) (r : Scd2Row), r ∈ l →
      r.geo_id ≤ l.foldl (fun m r => max m r.geo_id) acc := by
  intro l
  induction l with
  | nil => intro acc r hr; cases hr
  | cons x xs ih =>
    intro acc r hr
    rcases List.mem_cons.mp hr with h | h
    · subst h
      exact le_trans (Nat.le_max_right acc r.geo_id) (foldl_maxGeo_ge_acc xs _)
    · exact ih _ r h

/-- The store-assigned surrogate key is strictly larger than every key
already present: it is never a reused key. -/
theorem mem_geo_lt_fresh (l : List Scd2Row) (r : Scd2Row) (hr : r ∈ l) :
    r.geo_id < freshGeoId l :=
  Nat.lt_succ_of_le (foldl_maxGeo_ge_mem l 0 r hr)

/-- Overwriting one column of a row dict leaves the reads of every other
column unchanged (in-place branch). -/
theorem getAttr_map_update_ne (c c' : String) (v : Cell) (h : c' ≠ c) :
    ∀ a : List (String × Cell),
      getAttr (a.map (fun p => if p.1 = c then (c, v) else p)) c' = getAttr a c' := by
  have hcc : ¬c = c' := fun hh => h hh.symm
  intro a
  induction a with
  | nil => rfl
  | cons p ps ih =>
    by_cases hp : p.1 = c
    · have h1 : (if p.1 = c then (c, v) else p) = (c, v) := if_pos hp
      have h3 : ¬p.1 = c' := fun hh => h (hp ▸ hh).symm
      unfold getAttr
      rw [List.map_cons, h1,
          List.find?_cons_of_neg _ (by simpa using hcc),
          List.find?_cons_of_neg _ (by simpa using h3)]
      exact ih
    · have h1 : (if p.1 = c then (c, v) else p) = p := if_neg hp
      by_cases hpc : p.1 = c'
      · unfold getAttr
        rw [List.map_cons, h1,
            List.find?_cons_of_pos _ (by simpa using hpc),
            List.find?_cons_of_pos _ (by simpa using hpc)]
      · unfold getAttr
        rw [List.map_cons, h1,
            List.find?_cons_of_neg _ (by simpa using hpc),
            List.find?_cons_of_neg _ (by simpa using hpc)]
        exact ih

/-- Appending a new column binding leaves the reads of every other column
unchanged (append branch). -/
theorem getAttr_append_ne (a : List (String × Cell)) (c c' : String) (v : Cell)
    (h : c' ≠ c) : getAttr (a ++ [(c, v)]) c' = getAttr a c' := by
  unfold getAttr
  rw [List.find?_append]
  cases hf : a.find? (fun p => p.1 = c') with
  | some p => rfl
  | none =>
    simp only [Option.none_or]
    rw [List.find?_cons_of_neg _ (by simpa using fun hh : c = c' => h hh.symm)]
    rfl

/-- `setAttr` on one column does not change the reads of other columns. -/
theorem getAttr_setAttr_ne (a : List (String × Cell)) (c c' : String) (v : Cell)
    (h : c' ≠ c) : getAttr (setAttr a c v) c' = getAttr a c' := by
  unfold setAttr
  by_cases hany : a.any (fun p => p.1 = c)
  · rw [if_pos hany]
    exact getAttr_map_update_ne c c' v h a
  · rw [if_neg hany]
    exact getAttr_append_ne a c c' v h

/-- Applying the staged tracked values to a cloned record leaves every
non-tracked attribute exactly as in the clone source. -/
theorem getAttr_applyTracked_not_mem (n : Scd2New) :
    ∀ (tracked : List String) (attrs : List (String × Cell)) (c : String),
      c ∉ tracked →
      getAttr (applyTracked tracked n attrs) c = getAttr attrs c := by
  intro tracked
  induction tracked with
  | nil => intro attrs c _; rfl
  | cons t ts ih =>
    intro attrs c hc
    have hct : c ≠ t := fun hh => hc (hh ▸ List.mem_cons_self t ts)
    have hcts : c ∉ ts := fun hh => hc (List.mem_cons_of_mem t hh)
    show getAttr (ts.foldl _ (match getAttr n.vals t with
        | some v => setAttr attrs t (some v)
        | none => attrs)) c = getAttr attrs c
    cases hv : getAttr n.vals t with
    | none =>
      simp only [hv]
      exact ih attrs c hcts
    | some v =>
      simp only [hv]
      rw [show (ts.foldl (fun a col =>
          match getAttr n.vals col with
          | some v => setAttr a col (some v)
          | none => a) (setAttr attrs t (some v)))
          = applyTracked ts n (setAttr attrs t (some v)) from rfl]
      rw [ih (setAttr attrs t (some v)) c hcts]
      exact getAttr_setAttr_ne attrs t c (some v) hct

/-! ## C1 -/

/-- C1: one SCD-Type-2 application on a key holding exactly one active row
at version `N` (all other rows of the key sitting strictly below `N`),
with a tracked column genuinely changed (both values non-null, differing
string renderings) and no persistence error: exactly one change is
counted and no exception escapes; every row carrying the previously
active row's surrogate key ends closed (`est_actif = 0`, non-null
`date_fin_validite`); a new row exists that is active at version `N + 1`
with a fresh validity start, a surrogate key distinct from every
pre-existing key (the closed row's included), and all non-tracked
attributes cloned from the just-closed row; and afterwards at most one
row of that business key is active. -/
theorem c1_scd2_versioning
    (f : Val → Bool) (now : Nat) (tracked : List String)
    (table : List Scd2Row) (a : Scd2Row) (n : Scd2New)
    (h1 : (table.filter (fun r => r.est_actif)).filter (fun c => c.bk = n.bk) = [a])
    (hch : ∃ col ∈ tracked, ∃ x y, getAttr n.vals col = some x
      ∧ getAttr a.attrs col = some y ∧ x.str ≠ y.str)
    (hf : f n.bk = false)
    (hver : ∀ r ∈ table, r.bk = n.bk → r.geo_id ≠ a.geo_id → r.version < a.version)
    (hid : ∀ r ∈ table, r.geo_id = a.geo_id → r = a) :
    (apply_scd_type2 f now tracked table [n]).2 = (1, false)
    ∧ (∀ r ∈ (apply_scd_type2 f now tracked table [n]).1, r.geo_id = a.geo_id →
        r.est_actif = false ∧ r.date_fin_validite = some now)
    ∧ (∃ nr ∈ (apply_scd_type2 f now tracked table [n]).1,
        nr.bk = n.bk ∧ nr.est_actif = true ∧ nr.version = a.version + 1
        ∧ nr.date_debut_validite = now ∧ nr.date_fin_validite = none
        ∧ (∀ r ∈ table, nr.geo_id ≠ r.geo_id)
        ∧ (∀ c, c ∉ tracked → getAttr nr.attrs c = getAttr a.attrs c))
    ∧ ((apply_scd_type2 f now tracked table [n]).1.filter
        (fun r => r.est_actif && decide (r.bk = n.bk))).length ≤ 1 := by
  have hamem2 : a ∈ (table.filter (fun r => r.est_actif)).filter
      (fun c => c.bk = n.bk) := by
    rw [h1]; exact List.mem_singleton_self a
  have hamem : a ∈ table.filter (fun r => r.est_actif) :=
    List.mem_of_mem_filter hamem2
  have habk : a.bk = n.bk := of_decide_eq_true (List.mem_filter.mp hamem2).2
  have haact : a.est_actif = true := (List.mem_filter.mp hamem).2
  have hatab : a ∈ table := List.mem_of_mem_filter hamem
  have hcur_ne : table.filter (fun r => r.est_actif) ≠ [] :=
    List.ne_nil_of_mem hamem
  have hchanged : scd2Changed tracked n a = true := by
    obtain ⟨col, hcol, x, y, hx, hy, hxy⟩ := hch
    unfold scd2Changed
    rw [List.any_eq_true]
    refine ⟨col, hcol, ?_⟩
    simp [changedCell, hx, hy, hxy]
  have hmerged : scd2Merged [n] (table.filter (fun r => r.est_actif))
      = [(n, a)] := by
    simp only [scd2Merged, List.flatMap_cons, List.flatMap_nil, List.append_nil,
      h1, List.map_cons, List.map_nil]
  have hgeo_pres : ∀ t : Scd2Row,
      (if t.bk = n.bk ∧ t.est_actif = true then closeRow now t else t).geo_id
        = t.geo_id := by
    intro t
    by_cases hc : t.bk = n.bk ∧ t.est_actif = true
    · rw [if_pos hc]; rfl
    · rw [if_neg hc]
  have hcAmem : closeRow now a ∈ closeRows now n.bk table := by
    unfold closeRows
    exact List.mem_map.mpr ⟨a, hatab, if_pos ⟨habk, haact⟩⟩
  have hcAsel : closeRow now a ∈ (closeRows now n.bk table).filter
      (fun r => r.bk = n.bk ∧ r.est_actif = false) := by
    refine List.mem_filter.mpr ⟨hcAmem, ?_⟩
    exact decide_eq_true ⟨habk, rfl⟩
  have hsel : ∀ x ∈ (closeRows now n.bk table).filter
      (fun r => r.bk = n.bk ∧ r.est_actif = false),
      x = closeRow now a ∨ x.version < (closeRow now a).version := by
    intro x hx
    have hxmem : x ∈ closeRows now n.bk table := List.mem_of_mem_filter hx
    unfold closeRows at hxmem
    obtain ⟨r, hrtab, hgr⟩ := List.mem_map.mp hxmem
    by_cases hrid : r.geo_id = a.geo_id
    · left
      have hra : r = a := hid r hrtab hrid
      rw [← hgr, hra]
      exact if_pos ⟨habk, haact⟩
    · right
      have hxprop : x.bk = n.bk ∧ x.est_actif = false :=
        of_decide_eq_true (List.mem_filter.mp hx).2
      have hpres : x.version = r.version ∧ x.bk = r.bk := by
        rw [← hgr]
        by_cases hc : r.bk = n.bk ∧ r.est_actif = true
        · rw [if_pos hc]; exact ⟨rfl, rfl⟩
        · rw [if_neg hc]; exact ⟨rfl, rfl⟩
      have hrbk : r.bk = n.bk := hpres.2 ▸ hxprop.1
      have hvlt : r.version < a.version := hver r hrtab hrbk hrid
      rw [hpres.1]
      exact hvlt
  have hmax : maxVersionRow ((closeRows now n.bk table).filter
      (fun r => r.bk = n.bk ∧ r.est_actif = false)) = some (closeRow now a) :=
    maxVersionRow_eq _ _ hcAsel hsel
  have hres : apply_scd_type2 f now tracked table [n]
      = (closeRows now n.bk table ++
         [{ geo_id := freshGeoId (closeRows now n.bk table), bk := a.bk,
            attrs := applyTracked tracked n a.attrs, version := a.version + 1,
            est_actif := true, date_debut_validite := now,
            date_fin_validite := none, date_creation := now,
            date_modification := now }], 1, false) := by
    unfold apply_scd_type2
    rw [if_neg hcur_ne]
    rw [hmerged]
    simp only [List.foldl, scd2Step, hchanged, hf]
    simp only [Bool.false_eq_true, if_false, if_true]
    rw [hmax]
    simp [closeRow]
  have hfresh_gt : ∀ r ∈ table,
      r.geo_id < freshGeoId (closeRows now n.bk table) := by
    intro r hrt
    have hmem : (if r.bk = n.bk ∧ r.est_actif = true then closeRow now r else r)
        ∈ closeRows now n.bk table := by
      unfold closeRows
      exact List.mem_map.mpr ⟨r, hrt, rfl⟩
    have := mem_geo_lt_fresh _ _ hmem
    rw [hgeo_pres r] at this
    exact this
  refine ⟨by rw [hres], ?_, ?_, ?_⟩
  · intro r hr hrid
    rw [hres] at hr
    rcases List.mem_append.mp hr with hrc | hrnew
    · unfold closeRows at hrc
      obtain ⟨t, httab, hgt⟩ := List.mem_map.mp hrc
      by_cases htid : t.geo_id = a.geo_id
      · have hta : t = a := hid t httab htid
        rw [hta] at hgt
        rw [if_pos ⟨habk, haact⟩] at hgt
        rw [← hgt]
        exact ⟨rfl, rfl⟩
      · exfalso
        have hpres : r.geo_id = t.geo_id := by
          rw [← hgt]; exact hgeo_pres t
        exact htid (hpres ▸ hrid)
    · exfalso
      have hrnew' := List.mem_singleton.mp hrnew
      have hlt : a.geo_id < freshGeoId (closeRows now n.bk table) :=
        hfresh_gt a hatab
      rw [hrnew'] at hrid
      exact (Nat.ne_of_gt hlt) hrid
  · rw [hres]
    refine ⟨_, List.mem_append_right _ (List.mem_singleton_self _),
      habk, rfl, rfl, rfl, rfl, ?_, ?_⟩
    · intro r hrt
      exact fun hh => (Nat.ne_of_gt (hfresh_gt r hrt)) hh
    · intro c hc
      exact getAttr_applyTracked_not_mem n tracked a.attrs c hc
  · rw [hres, List.filter_append]
    have hclosednil : (closeRows now n.bk table).filter
        (fun r => r.est_actif && decide (r.bk = n.bk)) = [] := by
      rw [List.filter_eq_nil_iff]
      intro x hx
      unfold closeRows at hx
      obtain ⟨t, httab, hgt⟩ := List.mem_map.mp hx
      by_cases hc : t.bk = n.bk ∧ t.est_actif = true
      · rw [if_pos hc] at hgt
        rw [← hgt]
        simp [closeRow]
      · rw [if_neg hc] at hgt
        rw [← hgt]
        simp only [Bool.and_eq_true, decide_eq_true_eq]
        exact fun hh => hc ⟨hh.2, hh.1⟩
    rw [hclosednil]
    simp only [List.nil_append]
    exact List.length_filter_le _ _

/-- C1 witness: department 59 at version 1 renamed from `Nord` to
`Nord-Revise`: one change is counted, the old row is closed, a version-2
active row with a fresh key exists, and at most one row stays active. -/
theorem c1_scd2_versioning_witness :
    (apply_scd_type2 (fun _ => false) 5 ["departement_nom"]
      [{ geo_id := 1, bk := Val.s "59",
         attrs := [("departement_nom", some (Val.s "Nord")),
                   ("region_nom", some (Val.s "Hauts-de-France"))],
         version := 1, est_actif := true, date_debut_validite := 0,
         date_fin_validite := none, date_creation := 0, date_modification := 0 }]
      [{ bk := Val.s "59",
         vals := [("departement_nom", some (Val.s "Nord-Revise"))] }]).2
      = (1, false) :=
  (c1_scd2_versioning (fun _ => false) 5 ["departement_nom"]
    [{ geo_id := 1, bk := Val.s "59",
       attrs := [("departement_nom", some (Val.s "Nord")),
                 ("region_nom", some (Val.s "Hauts-de-France"))],
       version := 1, est_actif := true, date_debut_validite := 0,
       date_fin_validite := none, date_creation := 0, date_modification := 0 }]
    { geo_id := 1, bk := Val.s "59",
      attrs := [("departement_nom", some (Val.s "Nord")),
                ("region_nom", some (Val.s "Hauts-de-France"))],
      version := 1, est_actif := true, date_debut_validite := 0,
      date_fin_validite := none, date_creation := 0, date_modification := 0 }
    { bk := Val.s "59",
      vals := [("departement_nom", some (Val.s "Nord-Revise"))] }
    (by decide)
    ⟨"departement_nom", by decide, Val.s "Nord-Revise", Val.s "Nord",
      by decide, by decide, by decide⟩
    rfl (by decide) (by decide)).1

end EvoDwh
